import Mathlib

/-!
Shallow embedding of the architecture-as-code studio's renderer layer:
the architecture data model, the four renderers (Graph, PlantUML,
Structurizr, LikeC4), the model analyzer/validators, the API-payload
conversion, and the renderer registry.  Optional JavaScript string
fields are `Option String`; JavaScript truthiness of such a field
(`undefined` and `""` are both falsy) is the `truthy` test below.
Wall-clock reads (`Date.now()`, `new Date()`) are explicit parameters
of the render functions.
-/

/-- JavaScript truthiness of an optional string: `undefined` and the
empty string are falsy, every other string is truthy. -/
def truthy : Option String → Bool
  | none => false
  | some s => !(s == "")

/-- JavaScript `x || d` for an optional string `x` and default `d`. -/
def jsOr (o : Option String) (d : String) : String :=
  if truthy o then o.getD "" else d

/-- JavaScript `x || d` where `x` is a plain string. -/
def jsOrS (s d : String) : String :=
  if s == "" then d else s

/-- Read an optional string, with the JS non-null assertion `x!`
modelled as defaulting a missing value to the empty string. -/
def getS (o : Option String) : String :=
  o.getD ""

/-- Read an optional list, `xs || []`. -/
def optList {α : Type} (o : Option (List α)) : List α :=
  o.getD []

/-- Character-level body of `sanitizeId`: keep ASCII alphanumerics,
replace everything else by an underscore. -/
def sanChar (c : Char) : Char :=
  if c.isAlphanum then c else '_'

/-- `AbstractRenderer.sanitizeId`: `id.replace(/[^a-zA-Z0-9]/g, '_')`. -/
def sanitize (s : String) : String :=
  String.mk (s.data.map sanChar)

/-- Does `needle` start the character list `hay` (helper for the JS
`String.prototype.includes` embedding)? -/
def charsStartWith : List Char → List Char → Bool
  | [], _ => true
  | _ :: _, [] => false
  | a :: as, b :: bs => a == b && charsStartWith as bs

/-- Does `needle` occur as a contiguous run inside `hay`? -/
def charsContain (needle : List Char) : List Char → Bool
  | [] => needle.isEmpty
  | b :: bs => charsStartWith needle (b :: bs) || charsContain needle bs

/-- JavaScript `hay.includes(needle)`. -/
def strIncludes (hay needle : String) : Bool :=
  charsContain needle.data hay.data

/-- JavaScript `s.replace('_', '-')` (string pattern: first occurrence
only), on a character list. -/
def replaceFirstUnderscoreChars : List Char → List Char
  | [] => []
  | c :: cs => if c == '_' then '-' :: cs else c :: replaceFirstUnderscoreChars cs

/-- JavaScript `s.replace('_', '-')`. -/
def replaceFirstUnderscore (s : String) : String :=
  String.mk (replaceFirstUnderscoreChars s.data)

/-- Insertion-ordered deduplication, the iteration order of a JS `Set`
built by inserting the elements of a list in order. -/
def jsSetList : List String → List String → List String
  | _, [] => []
  | seen, x :: xs =>
    if seen.contains x then jsSetList seen xs
    else x :: jsSetList (x :: seen) xs

/-- Build the JS `Set` iteration order of a list of strings. -/
def jsSet (l : List String) : List String :=
  jsSetList [] l

/-- Concatenation of a list of strings (the renderers' string
accumulation loops). -/
def strConcat : List String → String
  | [] => ""
  | s :: ss => s ++ strConcat ss

/-- `Math.ceil(a / b)` for non-negative integers with `b > 0`. -/
def ceilDiv (a b : Nat) : Nat :=
  (a + b - 1) / b

/-- Both `uid` and `name` are truthy: the inclusion filter every
renderer applies to model elements. -/
def hasIdName (u n : Option String) : Bool :=
  truthy u && truthy n

/- ## Architecture data model (generated API / `ArchitectureModel`) -/

/-- Reference held by a relationship endpoint: either a raw id string
or an object carrying an optional `uid`. -/
inductive RelRef where
  | str (s : String)
  | obj (uid : Option String)
deriving DecidableEq

/-- JavaScript truthiness of a relationship endpoint: a missing value
and an empty string are falsy, any object is truthy. -/
def truthyRef : Option RelRef → Bool
  | none => false
  | some (RelRef.str s) => !(s == "")
  | some (RelRef.obj _) => true

/-- `AbstractRenderer.extractElementId`: prefer a truthy `.uid`, else
string-coerce (an object without a truthy uid coerces to
`"[object Object]"`). -/
def extractElementId : RelRef → String
  | RelRef.str s => s
  | RelRef.obj u => if truthy u then getS u else "[object Object]"

structure BusinessActor where
  uid : Option String
  name : Option String
  description : Option String
  actorType : Option String
  properties : Option (List (String × String))
deriving DecidableEq

structure BusinessService where
  uid : Option String
  name : Option String
  description : Option String
  serviceLevel : Option String
  availability : Option String
  properties : Option (List (String × String))
deriving DecidableEq

structure Application where
  uid : Option String
  name : Option String
  description : Option String
  stereoType : Option String
  lifecycle : Option String
deriving DecidableEq

structure ApplicationComponent where
  uid : Option String
  name : Option String
  description : Option String
  componentType : Option String
  technology : Option String
  properties : Option (List (String × String))
deriving DecidableEq

structure ApplicationService where
  uid : Option String
  name : Option String
  description : Option String
  properties : Option (List (String × String))
deriving DecidableEq

structure TechnologyNode where
  uid : Option String
  name : Option String
  description : Option String
  nodeType : Option String
  location : Option String
  capacity : Option String
  operatingSystem : Option String
deriving DecidableEq

structure SystemSoftware where
  uid : Option String
  name : Option String
  description : Option String
  vendor : Option String
  version : Option String
  softwareType : Option String
deriving DecidableEq

structure TechnologyService where
  uid : Option String
  name : Option String
  description : Option String
  provider : Option String
  serviceCategory : Option String
deriving DecidableEq

structure Relationship where
  source : Option RelRef
  target : Option RelRef
  description : Option String
  relationshipType : Option String
  flowType : Option String
  properties : Option (List (String × String))
deriving DecidableEq

/-- Business layer; capabilities/domains/processes are only ever
counted, so their elements are abstracted to `Unit`. -/
structure BusinessLayer where
  actors : Option (List BusinessActor)
  services : Option (List BusinessService)
  capabilities : Option (List Unit)
  domains : Option (List Unit)
  processes : Option (List Unit)
deriving DecidableEq

structure ApplicationLayer where
  applications : Option (List Application)
  components : Option (List ApplicationComponent)
  services : Option (List ApplicationService)
  interfaces : Option (List Unit)
deriving DecidableEq

structure TechnologyLayer where
  nodes : Option (List TechnologyNode)
  services : Option (List TechnologyService)
  systemSoftware : Option (List SystemSoftware)
  artifacts : Option (List Unit)
  interfaces : Option (List Unit)
deriving DecidableEq

/-- Normalized `ArchitectureModel` (uid/name/description required). -/
structure ArchitectureModel where
  uid : String
  name : String
  description : String
  version : Option String
  businessLayer : Option BusinessLayer
  applicationLayer : Option ApplicationLayer
  technologyLayer : Option TechnologyLayer
  relationships : Option (List Relationship)
  metadata : Option (List (String × String))
deriving DecidableEq

/-- Raw API `Architecture` payload (everything optional). -/
structure Architecture where
  uid : Option String
  name : Option String
  description : Option String
  version : Option String
  businessLayer : Option BusinessLayer
  applicationLayer : Option ApplicationLayer
  technologyLayer : Option TechnologyLayer
  relationships : Option (List Relationship)
  metadata : Option (List (String × String))
deriving DecidableEq

/-- Actors of a model, `architecture.businessLayer?.actors` or `[]`. -/
def mActors (m : ArchitectureModel) : List BusinessActor :=
  optList (m.businessLayer.bind (·.actors))

def mBusinessServices (m : ArchitectureModel) : List BusinessService :=
  optList (m.businessLayer.bind (·.services))

def mApplications (m : ArchitectureModel) : List Application :=
  optList (m.applicationLayer.bind (·.applications))

def mComponents (m : ArchitectureModel) : List ApplicationComponent :=
  optList (m.applicationLayer.bind (·.components))

def mApplicationServices (m : ArchitectureModel) : List ApplicationService :=
  optList (m.applicationLayer.bind (·.services))

def mNodes (m : ArchitectureModel) : List TechnologyNode :=
  optList (m.technologyLayer.bind (·.nodes))

def mSystemSoftware (m : ArchitectureModel) : List SystemSoftware :=
  optList (m.technologyLayer.bind (·.systemSoftware))

def mTechnologyServices (m : ArchitectureModel) : List TechnologyService :=
  optList (m.technologyLayer.bind (·.services))

def mRelationships (m : ArchitectureModel) : List Relationship :=
  optList m.relationships

/- ## Graph renderer -/

structure GraphNode where
  id : String
  label : String
  group : String
  color : String
  shape : String
  title : String
  level : Nat
deriving DecidableEq

structure GraphEdge where
  from_ : String
  to_ : String
  label : String
  arrows : String
  color : String
  dashes : Bool
deriving DecidableEq

/-- Serialized form of the fixed `getDefaultGraphOptions()` literal
(layout/physics configuration; input-independent constant). -/
def defaultGraphOptionsJson : String :=
  "\x7b\n  \"layout\": \x7b\n    \"hierarchical\": \x7b\n      \"direction\": \"UD\",\n      \"sortMethod\": \"directed\",\n      \"levelSeparation\": 150,\n      \"nodeSpacing\": 200,\n      \"treeSpacing\": 200\n    \x7d\n  \x7d,\n  \"nodes\": \x7b\n    \"borderWidth\": 2,\n    \"shadow\": true,\n    \"font\": \x7b\n      \"size\": 12,\n      \"color\": \"#000000\"\n    \x7d\n  \x7d,\n  \"edges\": \x7b\n    \"arrows\": \x7b\n      \"to\": \x7b\n        \"enabled\": true,\n        \"scaleFactor\": 1\n      \x7d\n    \x7d,\n    \"shadow\": true,\n    \"smooth\": true,\n    \"font\": \x7b\n      \"size\": 11,\n      \"color\": \"#666666\"\n    \x7d\n  \x7d,\n  \"groups\": \x7b\n    \"business\": \x7b\n      \"color\": \x7b\n        \"background\": \"#4CAF50\",\n        \"border\": \"#388E3C\"\n      \x7d,\n      \"shape\": \"icon\",\n      \"icon\": \x7b\n        \"face\": \"FontAwesome\",\n        \"code\": \"\\uf007\",\n        \"size\": 50,\n        \"color\": \"#ffffff\"\n      \x7d\n    \x7d,\n    \"application\": \x7b\n      \"color\": \x7b\n        \"background\": \"#2196F3\",\n        \"border\": \"#1976D2\"\n      \x7d,\n      \"shape\": \"box\"\n    \x7d,\n    \"component\": \x7b\n      \"color\": \x7b\n        \"background\": \"#FF9800\",\n        \"border\": \"#F57C00\"\n      \x7d,\n      \"shape\": \"ellipse\"\n    \x7d,\n    \"technology\": \x7b\n      \"color\": \x7b\n        \"background\": \"#9C27B0\",\n        \"border\": \"#7B1FA2\"\n      \x7d,\n      \"shape\": \"database\"\n    \x7d,\n    \"software\": \x7b\n      \"color\": \x7b\n        \"background\": \"#607D8B\",\n        \"border\": \"#455A64\"\n      \x7d,\n      \"shape\": \"square\"\n    \x7d\n  \x7d,\n  \"interaction\": \x7b\n    \"hover\": true,\n    \"tooltipDelay\": 300,\n    \"hideEdgesOnDrag\": false,\n    \"hideNodesOnDrag\": false\n  \x7d,\n  \"physics\": \x7b\n    \"enabled\": true,\n    \"stabilization\": \x7b\n      \"iterations\": 100\n    \x7d\n  \x7d\n\x7d"

structure GraphData where
  nodes : List GraphNode
  edges : List GraphEdge
  options : String
deriving DecidableEq

/-- `GraphRenderer.getRelationshipColor`. -/
def getRelationshipColor : Option String → String
  | some "FLOW" => "#FF5722"
  | some "SERVING" => "#4CAF50"
  | some "ACCESS" => "#2196F3"
  | some "TRIGGERING" => "#FF9800"
  | some "COMPOSITION" => "#9C27B0"
  | _ => "#666666"

/-- Node pushed for a business actor (the tooltip template writes a
literal backslash-n between its lines). -/
def actorNode (a : BusinessActor) : GraphNode :=
  { id := sanitize (getS a.uid)
    label := getS a.name
    group := "business"
    color := "#4CAF50"
    shape := "icon"
    title := getS a.name ++ "\\n" ++ jsOr a.description "Business Actor" ++
      "\\nType: " ++ jsOr a.actorType "Unknown"
    level := 0 }

def appNode (a : Application) : GraphNode :=
  { id := sanitize (getS a.uid)
    label := getS a.name
    group := "application"
    color := "#2196F3"
    shape := "box"
    title := getS a.name ++ "\\n" ++ jsOr a.description "Application" ++
      "\\nLifecycle: " ++ jsOr a.lifecycle "Unknown"
    level := 1 }

def componentNode (c : ApplicationComponent) : GraphNode :=
  { id := sanitize (getS c.uid)
    label := getS c.name
    group := "component"
    color := "#FF9800"
    shape := "ellipse"
    title := getS c.name ++ "\\n" ++ jsOr c.description "Component" ++
      "\\nType: " ++ jsOr c.componentType "Unknown" ++
      "\\nTech: " ++ jsOr c.technology "N/A"
    level := 2 }

def techNode (n : TechnologyNode) : GraphNode :=
  { id := sanitize (getS n.uid)
    label := getS n.name
    group := "technology"
    color := "#9C27B0"
    shape := "database"
    title := getS n.name ++ "\\n" ++ jsOr n.description "Technology Node" ++
      "\\nOS: " ++ jsOr n.operatingSystem "Unknown" ++
      "\\nLocation: " ++ jsOr n.location "N/A"
    level := 3 }

def softwareNode (s : SystemSoftware) : GraphNode :=
  { id := sanitize (getS s.uid)
    label := getS s.name
    group := "software"
    color := "#607D8B"
    shape := "square"
    title := getS s.name ++ "\\n" ++ jsOr s.description "System Software" ++
      "\\nVendor: " ++ jsOr s.vendor "Unknown" ++
      "\\nVersion: " ++ jsOr s.version "N/A"
    level := 3 }

/-- Edge pushed for a relationship with truthy source and target. -/
def relationshipEdge (r : Relationship) : GraphEdge :=
  { from_ := sanitize (extractElementId (r.source.getD (RelRef.str "")))
    to_ := sanitize (extractElementId (r.target.getD (RelRef.str "")))
    label := jsOr r.description ""
    arrows := "to"
    color := getRelationshipColor r.relationshipType
    dashes := r.relationshipType == some "FLOW" }

/-- `GraphRenderer.generateGraphData`. -/
def generateGraphData (m : ArchitectureModel) : GraphData :=
  { nodes :=
      ((mActors m).filter (fun a => hasIdName a.uid a.name)).map actorNode ++
      ((mApplications m).filter (fun a => hasIdName a.uid a.name)).map appNode ++
      ((mComponents m).filter (fun c => hasIdName c.uid c.name)).map componentNode ++
      ((mNodes m).filter (fun n => hasIdName n.uid n.name)).map techNode ++
      ((mSystemSoftware m).filter (fun s => hasIdName s.uid s.name)).map softwareNode
    edges :=
      ((mRelationships m).filter
        (fun r => truthyRef r.source && truthyRef r.target)).map relationshipEdge
    options := defaultGraphOptionsJson }

/-- `GraphRenderer.calculateDensity` (JS number division modelled over
the rationals). -/
def calculateDensity (g : GraphData) : ℚ :=
  let n : Nat := g.nodes.length
  let m : Nat := g.edges.length
  if 1 < n then ((2 * m : Nat) : ℚ) / (((n * (n - 1) : Nat)) : ℚ) else 0

/- JSON serialization of the graph data
(`JSON.stringify(graphData, null, 2)`). -/

/-- Escape one character for a JSON string literal. -/
def jsonEscapeChar (c : Char) : String :=
  if c == '"' then "\\\""
  else if c == '\\' then "\\\\"
  else if c == '\n' then "\\n"
  else String.singleton c

/-- Serialize a string as a JSON string literal. -/
def jsonStr (s : String) : String :=
  "\"" ++ strConcat (s.data.map jsonEscapeChar) ++ "\""

/-- Serialize a node object at the indentation used inside the
top-level `nodes` array. -/
def nodeJson (ind : String) (n : GraphNode) : String :=
  ind ++ "\x7b\n" ++
  ind ++ "  \"id\": " ++ jsonStr n.id ++ ",\n" ++
  ind ++ "  \"label\": " ++ jsonStr n.label ++ ",\n" ++
  ind ++ "  \"group\": " ++ jsonStr n.group ++ ",\n" ++
  ind ++ "  \"color\": " ++ jsonStr n.color ++ ",\n" ++
  ind ++ "  \"shape\": " ++ jsonStr n.shape ++ ",\n" ++
  ind ++ "  \"title\": " ++ jsonStr n.title ++ ",\n" ++
  ind ++ "  \"level\": " ++ toString n.level ++ "\n" ++
  ind ++ "\x7d"

def edgeJson (ind : String) (e : GraphEdge) : String :=
  ind ++ "\x7b\n" ++
  ind ++ "  \"from\": " ++ jsonStr e.from_ ++ ",\n" ++
  ind ++ "  \"to\": " ++ jsonStr e.to_ ++ ",\n" ++
  ind ++ "  \"label\": " ++ jsonStr e.label ++ ",\n" ++
  ind ++ "  \"arrows\": " ++ jsonStr e.arrows ++ ",\n" ++
  ind ++ "  \"color\": " ++ jsonStr e.color ++ ",\n" ++
  ind ++ "  \"dashes\": " ++ (if e.dashes then "true" else "false") ++ "\n" ++
  ind ++ "\x7d"

/-- Serialize a JSON array whose rendered items are given. -/
def jsonArray (ind : String) (items : List String) : String :=
  if items.isEmpty then "[]"
  else "[\n" ++ String.intercalate ",\n" items ++ "\n" ++ ind ++ "]"

/-- `JSON.stringify` of the `{nodes, edges, options}` triple. -/
def graphDataJson (g : GraphData) : String :=
  "\x7b\n  \"nodes\": " ++ jsonArray "  " (g.nodes.map (nodeJson "    ")) ++
  ",\n  \"edges\": " ++ jsonArray "  " (g.edges.map (edgeJson "    ")) ++
  ",\n  \"options\": " ++ g.options ++ "\n\x7d"

/-- `GraphRenderer.generateVisJSConfig`. -/
def generateVisJSConfig (g : GraphData) : String :=
  "// Vis.js Network Configuration\n" ++
  "const nodes = new vis.DataSet(" ++
    jsonArray "" (g.nodes.map (nodeJson "  ")) ++ ");\n" ++
  "const edges = new vis.DataSet(" ++
    jsonArray "" (g.edges.map (edgeJson "  ")) ++ ");\n\n" ++
  "const data = \x7b\n  nodes: nodes,\n  edges: edges\n\x7d;\n\n" ++
  "const options = " ++ g.options ++ ";\n\n" ++
  "// Create network\n" ++
  "const container = document.getElementById('mynetworkid');\n" ++
  "const network = new vis.Network(container, data, options);\n\n" ++
  "// Add event listeners\n" ++
  "network.on('click', function(params) \x7b\n" ++
  "  if (params.nodes.length > 0) \x7b\n" ++
  "    console.log('Node clicked:', params.nodes[0]);\n" ++
  "  \x7d\n\x7d);"

/- ## PlantUML renderer

All of this renderer's template strings are built from single-quoted
JS strings and template literals containing the two-character escape
`\\n`, so the emitted text contains literal backslash-n sequences. -/

/-- Render options (`format` and `viewType` are the only fields any
render body reads). -/
structure RenderOptions where
  format : Option String
  viewType : Option String
deriving DecidableEq

/-- `PlantUMLRenderer.formatViewType`. -/
def formatViewType (v : String) : String :=
  if v == "system-context" then "System Context"
  else if v == "container" then "Container View"
  else if v == "component" then "Component View"
  else if v == "landscape" then "Landscape View"
  else "Architecture View"

/-- `PlantUMLRenderer.getRelationshipDirection`. -/
def getRelationshipDirection : Option String → String
  | some "FLOW" => "_D"
  | some "SERVING" => "_U"
  | some "ACCESS" => ""
  | some "TRIGGERING" => "_R"
  | _ => ""

/-- `PlantUMLRenderer.getRelationshipTech`. -/
def getRelationshipTech (r : Relationship) : String :=
  let t := (optList r.properties).lookup "technology"
  if truthy t then getS t
  else if truthy r.flowType then getS r.flowType
  else ""

/-- `PlantUMLRenderer.getUMLArrow`. -/
def getUMLArrow : Option String → String
  | some "FLOW" => "-->"
  | some "SERVING" => "<--"
  | some "ACCESS" => "..>"
  | some "TRIGGERING" => "->"
  | some "COMPOSITION" => "*--"
  | some "AGGREGATION" => "o--"
  | _ => "-->"

def c4ActorLine (a : BusinessActor) : String :=
  if hasIdName a.uid a.name then
    "Person" ++ (if a.actorType == some "EXTERNAL" then "_Ext" else "") ++
    "(" ++ sanitize (getS a.uid) ++ ", \"" ++ getS a.name ++ "\", \"" ++
    jsOr a.description "" ++ "\")\\n"
  else ""

def c4SystemLine (a : Application) : String :=
  if hasIdName a.uid a.name then
    "System(" ++ sanitize (getS a.uid) ++ ", \"" ++ getS a.name ++ "\", \"" ++
    jsOr a.description "" ++ "\")\\n"
  else ""

def c4ContainerLine (c : ApplicationComponent) : String :=
  if hasIdName c.uid c.name then
    "Container" ++ (if c.componentType == some "DATABASE" then "Db" else "") ++
    "(" ++ sanitize (getS c.uid) ++ ", \"" ++ getS c.name ++ "\", \"" ++
    jsOr c.technology "Technology" ++ "\", \"" ++ jsOr c.description "" ++ "\")\\n"
  else ""

def c4ComponentLine (c : ApplicationComponent) : String :=
  if hasIdName c.uid c.name then
    "Component(" ++ sanitize (getS c.uid) ++ ", \"" ++ getS c.name ++ "\", \"" ++
    jsOr c.technology "Technology" ++ "\", \"" ++ jsOr c.description "" ++ "\")\\n"
  else ""

def c4ExtNodeLine (n : TechnologyNode) : String :=
  if hasIdName n.uid n.name then
    "System_Ext(" ++ sanitize (getS n.uid) ++ ", \"" ++ getS n.name ++ "\", \"" ++
    jsOr n.description "" ++ "\")\\n"
  else ""

def c4RelLine (r : Relationship) : String :=
  if truthyRef r.source && truthyRef r.target then
    "Rel" ++ getRelationshipDirection r.relationshipType ++
    "(" ++ sanitize (extractElementId (r.source.getD (RelRef.str ""))) ++ ", " ++
    sanitize (extractElementId (r.target.getD (RelRef.str ""))) ++ ", \"" ++
    jsOr r.description "" ++ "\", \"" ++ getRelationshipTech r ++ "\")\\n"
  else ""

/-- `PlantUMLRenderer.generateC4Diagram`. -/
def generateC4Diagram (m : ArchitectureModel) (viewType : String) : String :=
  "@startuml\\n" ++
  "!include https://raw.githubusercontent.com/plantuml-stdlib/C4-PlantUML/master/C4_Context.puml\\n" ++
  "!include https://raw.githubusercontent.com/plantuml-stdlib/C4-PlantUML/master/C4_Container.puml\\n" ++
  "!include https://raw.githubusercontent.com/plantuml-stdlib/C4-PlantUML/master/C4_Component.puml\\n\\n" ++
  "title " ++ m.name ++ " - " ++ formatViewType viewType ++ "\\n\\n" ++
  strConcat ((mActors m).map c4ActorLine) ++
  (if viewType == "system-context" then
    strConcat ((mApplications m).map c4SystemLine)
  else if viewType == "container" then
    strConcat ((mComponents m).map c4ContainerLine)
  else if viewType == "component" then
    strConcat ((mComponents m).map c4ComponentLine)
  else "") ++
  strConcat ((mNodes m).map c4ExtNodeLine) ++
  (match m.relationships with
   | none => ""
   | some rels => "\\n" ++ strConcat (rels.map c4RelLine)) ++
  "\\n@enduml"

def deployContainerLine (sw : SystemSoftware) : String :=
  "  Container(" ++ sanitize (getS sw.uid) ++ ", \"" ++ getS sw.name ++ "\", \"" ++
  jsOr sw.vendor "Vendor" ++ " " ++ jsOr sw.version "" ++ "\", \"" ++
  jsOr sw.description "" ++ "\")\\n"

def deploymentNodeBlock (m : ArchitectureModel) (n : TechnologyNode) : String :=
  if hasIdName n.uid n.name then
    "Deployment_Node(" ++ sanitize (getS n.uid) ++ ", \"" ++ getS n.name ++ "\", \"" ++
    jsOr n.operatingSystem "OS" ++ "\", \"" ++ jsOr n.description "" ++ "\") \x7b\\n" ++
    strConcat (((mSystemSoftware m).filter
      (fun sw => hasIdName sw.uid sw.name)).map deployContainerLine) ++
    "\x7d\\n\\n"
  else ""

def deployRelLine (r : Relationship) : String :=
  if truthyRef r.source && truthyRef r.target then
    "Rel(" ++ sanitize (extractElementId (r.source.getD (RelRef.str ""))) ++ ", " ++
    sanitize (extractElementId (r.target.getD (RelRef.str ""))) ++ ", \"" ++
    jsOr r.description "" ++ "\", \"" ++ getRelationshipTech r ++ "\")\\n"
  else ""

/-- `PlantUMLRenderer.generateDeploymentDiagram`. -/
def generateDeploymentDiagram (m : ArchitectureModel) : String :=
  "@startuml\\n" ++
  "!include https://raw.githubusercontent.com/plantuml-stdlib/C4-PlantUML/master/C4_Deployment.puml\\n\\n" ++
  "title " ++ m.name ++ " - Deployment View\\n\\n" ++
  strConcat ((mNodes m).map (deploymentNodeBlock m)) ++
  strConcat ((mRelationships m).map deployRelLine) ++
  "\\n@enduml"

def umlActorLine (a : BusinessActor) : String :=
  if hasIdName a.uid a.name then
    "  actor " ++ sanitize (getS a.uid) ++ " as \"" ++ getS a.name ++ "\"\\n"
  else ""

def umlAppLine (a : Application) : String :=
  if hasIdName a.uid a.name then
    "  component " ++ sanitize (getS a.uid) ++ " as \"" ++ getS a.name ++ "\"\\n"
  else ""

def umlComponentLine (c : ApplicationComponent) : String :=
  if hasIdName c.uid c.name then
    "  component " ++ sanitize (getS c.uid) ++ " as \"" ++ getS c.name ++ "\"" ++
    (if c.componentType == some "DATABASE" then " <<database>>" else "") ++ "\\n"
  else ""

def umlNodeLine (n : TechnologyNode) : String :=
  if hasIdName n.uid n.name then
    "  node " ++ sanitize (getS n.uid) ++ " as \"" ++ getS n.name ++ "\"\\n"
  else ""

def umlRelLine (r : Relationship) : String :=
  if truthyRef r.source && truthyRef r.target then
    sanitize (extractElementId (r.source.getD (RelRef.str ""))) ++ " " ++
    getUMLArrow r.relationshipType ++ " " ++
    sanitize (extractElementId (r.target.getD (RelRef.str ""))) ++ " : " ++
    jsOr r.description "" ++ "\\n"
  else ""

/-- `PlantUMLRenderer.generateComponentDiagram`. -/
def generateComponentDiagram (m : ArchitectureModel) : String :=
  "@startuml\\n" ++
  "title " ++ m.name ++ " - Component View\\n\\n" ++
  "package \"Business Layer\" \x7b\\n" ++
  strConcat ((mActors m).map umlActorLine) ++
  "\x7d\\n\\n" ++
  "package \"Application Layer\" \x7b\\n" ++
  strConcat ((mApplications m).map umlAppLine) ++
  strConcat ((mComponents m).map umlComponentLine) ++
  "\x7d\\n\\n" ++
  "package \"Technology Layer\" \x7b\\n" ++
  strConcat ((mNodes m).map umlNodeLine) ++
  "\x7d\\n\\n" ++
  strConcat ((mRelationships m).map umlRelLine) ++
  "\\n@enduml"

/-- Sanitized ids added to the sequence diagram's participant set, in
insertion order. -/
def seqParticipantIds (m : ArchitectureModel) : List String :=
  ((mActors m).filter (fun a => hasIdName a.uid a.name)).map
    (fun a => sanitize (getS a.uid)) ++
  ((mApplications m).filter (fun a => hasIdName a.uid a.name)).map
    (fun a => sanitize (getS a.uid)) ++
  ((mComponents m).filter (fun c => hasIdName c.uid c.name)).map
    (fun c => sanitize (getS c.uid))

def seqActorLine (a : BusinessActor) : String :=
  if hasIdName a.uid a.name then
    "participant \"" ++ getS a.name ++ "\" as " ++ sanitize (getS a.uid) ++ "\\n"
  else ""

def seqAppLine (a : Application) : String :=
  if hasIdName a.uid a.name then
    "participant \"" ++ getS a.name ++ "\" as " ++ sanitize (getS a.uid) ++ "\\n"
  else ""

def seqComponentLine (c : ApplicationComponent) : String :=
  if hasIdName c.uid c.name then
    "participant \"" ++ getS c.name ++ "\" as " ++ sanitize (getS c.uid) ++ "\\n"
  else ""

/-- One step of the numbered-interaction loop: emit an arrow and bump
the step counter when both endpoints are known participants. -/
def seqStep (parts : List String) (st : Nat × String) (r : Relationship) :
    Nat × String :=
  if truthyRef r.source && truthyRef r.target then
    let s := sanitize (extractElementId (r.source.getD (RelRef.str "")))
    let t := sanitize (extractElementId (r.target.getD (RelRef.str "")))
    if parts.contains s && parts.contains t then
      (st.1 + 1, st.2 ++ s ++ " " ++
        (if r.relationshipType == some "FLOW" then "->>" else "->") ++
        " " ++ t ++ " : " ++ toString st.1 ++ ". " ++
        jsOr r.description "interaction" ++ "\\n")
    else st
  else st

/-- `PlantUMLRenderer.generateSequenceDiagram`. -/
def generateSequenceDiagram (m : ArchitectureModel) : String :=
  "@startuml\\n" ++
  "title " ++ m.name ++ " - Sequence View\\n\\n" ++
  strConcat ((mActors m).map seqActorLine) ++
  strConcat ((mApplications m).map seqAppLine) ++
  strConcat ((mComponents m).map seqComponentLine) ++
  "\\n" ++
  ((mRelationships m).foldl (seqStep (seqParticipantIds m)) (1, "")).2 ++
  "\\n@enduml"

/-- Content produced by `PlantUMLRenderer.render`'s format switch. -/
def plantumlContent (m : ArchitectureModel) (opts : RenderOptions) : String :=
  let format := jsOr opts.format "c4"
  if format == "c4" then generateC4Diagram m (jsOr opts.viewType "system-context")
  else if format == "deployment" then generateDeploymentDiagram m
  else if format == "component" then generateComponentDiagram m
  else if format == "sequence" then generateSequenceDiagram m
  else generateC4Diagram m "system-context"

/- ## Structurizr renderer -/

/-- Internal Structurizr element (`StructurizrElement`); `isDatabase`
is only ever set on containers, and an absent JS field is falsy, so it
is a plain `Bool`. -/
structure StructurizrElement where
  id : String
  name : String
  description : String
  type_ : String
  technology : Option String
  tags : List String
  isDatabase : Bool
  nodeType : Option String
  serviceLevel : Option String
  availability : Option String
  location : Option String
  capacity : Option String
deriving DecidableEq

structure StructurizrRelationship where
  sourceId : String
  targetId : String
  description : String
  relationshipType : String
  flowType : Option String
  technology : String
deriving DecidableEq

structure StructurizrModel where
  name : String
  description : String
  people : List StructurizrElement
  systems : List StructurizrElement
  containers : List StructurizrElement
  components : List StructurizrElement
  services : List StructurizrElement
  infrastructure : List StructurizrElement
  relationships : List StructurizrRelationship
deriving DecidableEq

/-- Base element value with every optional field unset. -/
def baseElement (id name description type_ : String) : StructurizrElement :=
  { id := id, name := name, description := description, type_ := type_
    technology := none, tags := [], isDatabase := false, nodeType := none
    serviceLevel := none, availability := none, location := none, capacity := none }

/-- `StructurizrRenderer.mapBusinessActorsToPeople`. -/
def mapBusinessActorsToPeople (actors : List BusinessActor) : List StructurizrElement :=
  (actors.filter (fun a => hasIdName a.uid a.name)).map (fun a =>
    { baseElement (getS a.uid) (getS a.name) (jsOr a.description "") "person" with
      tags := match a.actorType with
        | some t => if t == "" then [] else [t.toLower]
        | none => [] })

/-- `StructurizrRenderer.mapApplicationsToSystems`. -/
def mapApplicationsToSystems (apps : List Application) : List StructurizrElement :=
  (apps.filter (fun a => hasIdName a.uid a.name)).map (fun a =>
    { baseElement (getS a.uid) (getS a.name) (jsOr a.description "") "system" with
      tags :=
        (if truthy a.stereoType then
          [replaceFirstUnderscore (getS a.stereoType).toLower] else []) ++
        (if truthy a.lifecycle then
          ["lifecycle-" ++ (getS a.lifecycle).toLower] else []) })

/-- `['BACKEND','FRONTEND','DATABASE','API_GATEWAY'].includes(componentType || '')`. -/
def isContainerType (t : Option String) : Bool :=
  ["BACKEND", "FRONTEND", "DATABASE", "API_GATEWAY"].contains (jsOr t "")

/-- Container built from an application component classified as a
container (`BACKEND`/`FRONTEND`/`DATABASE`/`API_GATEWAY`). -/
def mkContainerElement (c : ApplicationComponent) : StructurizrElement :=
  { baseElement (getS c.uid) (getS c.name) (jsOr c.description "") "container" with
    technology := some (jsOr c.technology "Unknown Technology")
    isDatabase := c.componentType == some "DATABASE"
    tags :=
      (if truthy c.componentType then [(getS c.componentType).toLower] else []) ++
      ["container"] ++
      (if c.componentType == some "DATABASE" then ["database"] else []) }

/-- Component built from an application component that is not a
container type. -/
def mkComponentElement (c : ApplicationComponent) : StructurizrElement :=
  { baseElement (getS c.uid) (getS c.name) (jsOr c.description "") "component" with
    technology := some (jsOr c.technology "Unknown Technology")
    tags :=
      (if truthy c.componentType then [(getS c.componentType).toLower] else []) ++
      ["component"] }

/-- Containers produced by `StructurizrRenderer.mapApplicationComponents`. -/
def mapComponentsToContainers (cs : List ApplicationComponent) : List StructurizrElement :=
  ((cs.filter (fun c => hasIdName c.uid c.name)).filter
    (fun c => isContainerType c.componentType)).map mkContainerElement

/-- Plain components produced by `StructurizrRenderer.mapApplicationComponents`. -/
def mapComponentsToComponents (cs : List ApplicationComponent) : List StructurizrElement :=
  ((cs.filter (fun c => hasIdName c.uid c.name)).filter
    (fun c => !isContainerType c.componentType)).map mkComponentElement

/-- `StructurizrRenderer.mapBusinessServices`. -/
def mapBusinessServicesS (ss : List BusinessService) : List StructurizrElement :=
  (ss.filter (fun s => hasIdName s.uid s.name)).map (fun s =>
    { baseElement (getS s.uid) (getS s.name) (jsOr s.description "") "service" with
      serviceLevel := s.serviceLevel
      availability := s.availability
      tags := ["business-service"] })

/-- `StructurizrRenderer.mapApplicationServices`. -/
def mapApplicationServicesS (ss : List ApplicationService) : List StructurizrElement :=
  (ss.filter (fun s => hasIdName s.uid s.name)).map (fun s =>
    { baseElement (getS s.uid) (getS s.name) (jsOr s.description "") "service" with
      tags := ["application-service"] })

/-- `StructurizrRenderer.mapTechnologyNodes`. -/
def mapTechnologyNodesS (ns : List TechnologyNode) : List StructurizrElement :=
  (ns.filter (fun n => hasIdName n.uid n.name)).map (fun n =>
    { baseElement (getS n.uid) (getS n.name) (jsOr n.description "") "infrastructure" with
      nodeType := n.nodeType
      location := n.location
      capacity := n.capacity
      technology := n.operatingSystem
      tags := ["technology-node"] ++
        (if truthy n.nodeType then [(getS n.nodeType).toLower] else []) })

/-- `StructurizrRenderer.mapSystemSoftware`; the technology string is
`` `${vendor || 'Unknown'} ${version || ''}`.trim() ``. -/
def mapSystemSoftwareS (sws : List SystemSoftware) : List StructurizrElement :=
  (sws.filter (fun s => hasIdName s.uid s.name)).map (fun s =>
    { baseElement (getS s.uid) (getS s.name) (jsOr s.description "") "infrastructure" with
      technology := some ((jsOr s.vendor "Unknown" ++ " " ++ jsOr s.version "").trim)
      tags := ["system-software"] ++
        (if truthy s.softwareType then [(getS s.softwareType).toLower] else []) })

/-- `StructurizrRenderer.mapTechnologyServices`. -/
def mapTechnologyServicesS (ss : List TechnologyService) : List StructurizrElement :=
  (ss.filter (fun s => hasIdName s.uid s.name)).map (fun s =>
    { baseElement (getS s.uid) (getS s.name) (jsOr s.description "") "service" with
      technology := s.provider
      tags := ["technology-service"] ++
        (if truthy s.serviceCategory then [(getS s.serviceCategory).toLower] else []) })

/-- `StructurizrRenderer.mapRelationships`. -/
def mapRelationshipsS (rels : List Relationship) : List StructurizrRelationship :=
  (rels.filter (fun r => truthyRef r.source && truthyRef r.target)).map (fun r =>
    { sourceId := extractElementId (r.source.getD (RelRef.str ""))
      targetId := extractElementId (r.target.getD (RelRef.str ""))
      description := jsOr r.description ""
      relationshipType := jsOr r.relationshipType "ASSOCIATION"
      flowType := r.flowType
      technology := jsOr ((optList r.properties).lookup "technology") "" })

/-- One inferred SERVING relationship from a person to a system. -/
def inferredRel (p s : StructurizrElement) : StructurizrRelationship :=
  { sourceId := p.id, targetId := s.id, description := "Uses"
    relationshipType := "SERVING", flowType := none, technology := "HTTPS" }

/-- `StructurizrRenderer.inferActorSystemRelationships`. -/
def inferActorSystemRelationships (people systems : List StructurizrElement) :
    List StructurizrRelationship :=
  if !people.isEmpty && !systems.isEmpty then
    people.flatMap (fun p => systems.map (fun s => inferredRel p s))
  else []

/-- `StructurizrRenderer.mapToStructurizrModel`. -/
def mapToStructurizrModel (m : ArchitectureModel) : StructurizrModel :=
  let people := mapBusinessActorsToPeople (mActors m)
  let systems := mapApplicationsToSystems (mApplications m)
  let mappedRels := mapRelationshipsS (mRelationships m)
  { name := m.name
    description := m.description
    people := people
    systems := systems
    containers := mapComponentsToContainers (mComponents m)
    components := mapComponentsToComponents (mComponents m)
    services := mapBusinessServicesS (mBusinessServices m) ++
      mapApplicationServicesS (mApplicationServices m)
    infrastructure := mapTechnologyNodesS (mNodes m) ++
      mapSystemSoftwareS (mSystemSoftware m) ++
      mapTechnologyServicesS (mTechnologyServices m)
    relationships :=
      if mappedRels.length == 0 then
        inferActorSystemRelationships people systems
      else mappedRels }

/- ### Structurizr DSL generation -/

def dslPersonLine (p : StructurizrElement) : String :=
  "        " ++ sanitize p.id ++ " = person \"" ++ p.name ++ "\"" ++
  (if p.description == "" then "" else " \"" ++ p.description ++ "\"") ++ "\n"

def dslComponentLine (c : StructurizrElement) : String :=
  "                " ++ sanitize c.id ++ " = component \"" ++ c.name ++ "\"" ++
  (if c.description == "" then "" else " \"" ++ c.description ++ "\"") ++
  (match c.technology with
   | none => ""
   | some t => if t == "" then "" else " \"" ++ t ++ "\"") ++ "\n"

def dslServiceLine (s : StructurizrElement) : String :=
  "                " ++ sanitize s.id ++ " = component \"" ++ s.name ++ "\"" ++
  (if s.description == "" then "" else " \"" ++ s.description ++ "\"") ++
  " \"Service\"\n"

/-- Opening line of a container declaration (name, optional
description/technology, database marker). -/
def dslContainerHead (c : StructurizrElement) : String :=
  "            " ++ sanitize c.id ++ " = container \"" ++ c.name ++ "\"" ++
  (if c.description == "" then "" else " \"" ++ c.description ++ "\"") ++
  (match c.technology with
   | none => ""
   | some t => if t == "" then "" else " \"" ++ t ++ "\"") ++
  (if c.isDatabase then " \"Database\"" else "") ++
  " \x7b\n"

/-- Text emitted for one container of the system at `systemIndex`:
components and services are inlined only for the first system. -/
def dslContainerChunk (sm : StructurizrModel) (systemIndex : Nat)
    (c : StructurizrElement) : String :=
  dslContainerHead c ++
  (if systemIndex == 0 then strConcat (sm.components.map dslComponentLine) else "") ++
  (if systemIndex == 0 then strConcat (sm.services.map dslServiceLine) else "") ++
  "            \x7d\n"

/-- Containers assigned to the system at `systemIndex` by index-range
slicing (`ceil(totalContainers / systemCount)` per system). -/
def systemContainersSlice (sm : StructurizrModel) (systemIndex : Nat) :
    List StructurizrElement :=
  let cps := ceilDiv sm.containers.length (max sm.systems.length 1)
  (sm.containers.drop (systemIndex * cps)).take cps

/-- Text emitted for one software system (with its sliced containers,
or a placeholder container when the slice is empty). -/
def dslSystemChunk (sm : StructurizrModel) (systemIndex : Nat)
    (sys : StructurizrElement) : String :=
  let scs := systemContainersSlice sm systemIndex
  "        " ++ sanitize sys.id ++ " = softwareSystem \"" ++ sys.name ++ "\"" ++
  (if sys.description == "" then "" else " \"" ++ sys.description ++ "\"") ++
  " \x7b\n" ++
  strConcat (scs.map (dslContainerChunk sm systemIndex)) ++
  (if scs.isEmpty then
    "            " ++ sanitize (sys.id ++ "_container") ++ " = container \"" ++
    sys.name ++ " Core\" \"" ++ jsOrS sys.description "Main component" ++
    "\" \"Application\"\n"
  else "") ++
  "        \x7d\n"

def dslInfraChunk (i : StructurizrElement) : String :=
  "        " ++ sanitize i.id ++ " = softwareSystem \"" ++ i.name ++ "\"" ++
  (if i.description == "" then "" else " \"" ++ i.description ++ "\"") ++
  " \x7b\n" ++
  "            tags \"Infrastructure\"" ++
  (match i.nodeType with
   | none => ""
   | some t => if t == "" then "" else "," ++ t) ++
  "\n        \x7d\n"

def dslRelLine (r : StructurizrRelationship) : String :=
  "        " ++ sanitize r.sourceId ++ " -> " ++ sanitize r.targetId ++
  " \"" ++ r.description ++ "\"" ++
  (if r.technology == "" then "" else " \"" ++ r.technology ++ "\"") ++ "\n"

/-- Views block of the DSL (system context / containers / components
views keyed off the first system and first container). -/
def dslViews (sm : StructurizrModel) : String :=
  "    views \x7b\n" ++
  (match sm.systems with
   | [] => ""
   | mainSys :: _ =>
     "        systemContext " ++ sanitize mainSys.id ++ " \"SystemContext\" \x7b\n" ++
     "            include *\n            autoLayout\n        \x7d\n\n" ++
     (match sm.containers with
      | [] => ""
      | mainC :: _ =>
        "        container " ++ sanitize mainSys.id ++ " \"Containers\" \x7b\n" ++
        "            include *\n            autoLayout\n        \x7d\n\n" ++
        (if sm.components.isEmpty then ""
         else
          "        component " ++ sanitize mainC.id ++ " \"Components\" \x7b\n" ++
          "            include *\n            autoLayout\n        \x7d\n\n"))) ++
  "        theme default\n    \x7d\n"

/-- `StructurizrRenderer.generateStructurizrDSL`. -/
def generateStructurizrDSL (sm : StructurizrModel) : String :=
  "workspace \"" ++ sm.name ++ "\" \"" ++ sm.description ++ "\" \x7b\n\n" ++
  "    model \x7b\n" ++
  strConcat (sm.people.map dslPersonLine) ++
  (if !sm.people.isEmpty && !sm.systems.isEmpty then "\n" else "") ++
  strConcat (sm.systems.enum.map (fun p => dslSystemChunk sm p.1 p.2)) ++
  (if sm.infrastructure.isEmpty then ""
   else "\n        # Infrastructure\n" ++
     strConcat (sm.infrastructure.map dslInfraChunk)) ++
  (if sm.relationships.isEmpty then ""
   else "\n        # Relationships\n" ++
     strConcat (sm.relationships.map dslRelLine)) ++
  "\n    \x7d\n\n" ++
  dslViews sm ++
  "\x7d\n"

/- ### Structurizr PlantUML generation -/

def spPersonLine (p : StructurizrElement) : String :=
  "Person(" ++ sanitize p.id ++ ", \"" ++ p.name ++ "\", \"" ++
  p.description ++ "\")\n"

def spSystemLine (s : StructurizrElement) : String :=
  "System(" ++ sanitize s.id ++ ", \"" ++ s.name ++ "\", \"" ++
  s.description ++ "\")\n"

def spContainerLine (c : StructurizrElement) : String :=
  if c.isDatabase then
    "ContainerDb(" ++ sanitize c.id ++ ", \"" ++ c.name ++ "\", \"" ++
    jsOr c.technology "Database" ++ "\", \"" ++ c.description ++ "\")\n"
  else
    "Container(" ++ sanitize c.id ++ ", \"" ++ c.name ++ "\", \"" ++
    jsOr c.technology "Technology" ++ "\", \"" ++ c.description ++ "\")\n"

def spInfraExtLine (i : StructurizrElement) : String :=
  if i.nodeType == some "SERVER" || i.nodeType == some "CLOUD" then
    "System_Ext(" ++ sanitize i.id ++ ", \"" ++ i.name ++ "\", \"" ++
    i.description ++ "\")\n"
  else ""

def spComponentLine (c : StructurizrElement) : String :=
  "Component(" ++ sanitize c.id ++ ", \"" ++ c.name ++ "\", \"" ++
  jsOr c.technology "Component" ++ "\", \"" ++ c.description ++ "\")\n"

def spServiceLine (s : StructurizrElement) : String :=
  "Component(" ++ sanitize s.id ++ ", \"" ++ s.name ++ "\", \"Service\", \"" ++
  s.description ++ "\")\n"

def spInfraComponentLine (i : StructurizrElement) : String :=
  if !(i.nodeType == some "SERVER") && !(i.nodeType == some "CLOUD") then
    "Component(" ++ sanitize i.id ++ ", \"" ++ i.name ++ "\", \"" ++
    jsOr i.technology "Infrastructure" ++ "\", \"" ++ i.description ++ "\")\n"
  else ""

def spRelLine (r : StructurizrRelationship) : String :=
  let s := sanitize r.sourceId
  let t := sanitize r.targetId
  if r.relationshipType == "FLOW" then
    "Rel(" ++ s ++ ", " ++ t ++ ", \"" ++ r.description ++ "\", \"" ++
    jsOr r.flowType "flow" ++ "\")\n"
  else if r.relationshipType == "SERVING" then
    "Rel(" ++ s ++ ", " ++ t ++ ", \"" ++ r.description ++ "\", \"provides\")\n"
  else if r.relationshipType == "ACCESS" then
    "Rel(" ++ s ++ ", " ++ t ++ ", \"" ++ r.description ++ "\", \"accesses\")\n"
  else if r.relationshipType == "TRIGGERING" then
    "Rel_D(" ++ s ++ ", " ++ t ++ ", \"" ++ r.description ++ "\", \"triggers\")\n"
  else
    "Rel(" ++ s ++ ", " ++ t ++ ", \"" ++ r.description ++ "\")\n"

/-- `StructurizrRenderer.generatePlantUML`. -/
def structurizrPlantUML (sm : StructurizrModel) (viewType : String) : String :=
  "@startuml\n" ++
  "!include https://raw.githubusercontent.com/plantuml-stdlib/C4-PlantUML/master/C4_Context.puml\n" ++
  "!include https://raw.githubusercontent.com/plantuml-stdlib/C4-PlantUML/master/C4_Container.puml\n" ++
  "!include https://raw.githubusercontent.com/plantuml-stdlib/C4-PlantUML/master/C4_Component.puml\n\n" ++
  "title " ++ sm.name ++ "\n\n" ++
  strConcat (sm.people.map spPersonLine) ++
  strConcat (sm.systems.map spSystemLine) ++
  (if viewType == "container" || viewType == "component" then
    strConcat (sm.containers.map spContainerLine) ++
    strConcat (sm.infrastructure.map spInfraExtLine)
  else "") ++
  (if viewType == "component" then
    strConcat (sm.components.map spComponentLine) ++
    strConcat (sm.services.map spServiceLine) ++
    strConcat (sm.infrastructure.map spInfraComponentLine)
  else "") ++
  "\n" ++
  strConcat (sm.relationships.map spRelLine) ++
  "\n@enduml"

/-- Content produced by `StructurizrRenderer.render`'s format switch. -/
def structurizrContent (m : ArchitectureModel) (opts : RenderOptions) : String :=
  let format := jsOr opts.format "dsl"
  if format == "plantuml" then
    structurizrPlantUML (mapToStructurizrModel m) (jsOr opts.viewType "system-context")
  else
    generateStructurizrDSL (mapToStructurizrModel m)

/- ## LikeC4 renderer -/

/-- Childless LikeC4 element data.  The source's `LikeC4Element` allows
arbitrary nesting but the mapper only ever builds one level of
children, so children are lists of this base type. -/
structure LC4Base where
  id : String
  name : String
  description : Option String
  technology : Option String
  kind : String
  tags : List String
  props : List (String × String)
deriving DecidableEq

/-- LikeC4 element as the mapper builds it: a base plus an optional
children array (absent on every non-system element). -/
structure LikeC4Element where
  base : LC4Base
  children : Option (List LC4Base)
deriving DecidableEq

structure LikeC4Relationship where
  source : String
  target : String
  title : Option String
  description : Option String
  technology : Option String
  kind : String
  tags : List String
deriving DecidableEq

structure LikeC4Model where
  name : String
  description : String
  elements : List LikeC4Element
  relationships : List LikeC4Relationship
  views : List String
deriving DecidableEq

/-- `LikeC4Renderer.mapComponentKind`. -/
def mapComponentKind : Option String → String
  | none => "component"
  | some s =>
    let t := s.toLower
    if strIncludes t "service" then "service"
    else if strIncludes t "database" || strIncludes t "storage" then "infrastructure"
    else "component"

/-- `LikeC4Renderer.mapRelationshipKind`. -/
def mapRelationshipKind : Option String → String
  | some "FLOW" => "calls"
  | some "SERVING" => "uses"
  | some "ACCESS" => "uses"
  | some "TRIGGERING" => "calls"
  | some "COMPOSITION" => "contains"
  | some "AGGREGATION" => "contains"
  | _ => "uses"

/-- `LikeC4Renderer.mapBusinessActors`. -/
def mapBusinessActorsL (actors : List BusinessActor) : List LikeC4Element :=
  (actors.filter (fun a => hasIdName a.uid a.name)).map (fun a =>
    { base :=
        { id := sanitize (getS a.uid)
          name := getS a.name
          description := a.description
          technology := none
          kind := "actor"
          tags := ["business"] ++
            (if truthy a.actorType then [(getS a.actorType).toLower] else [])
          props := [("layer", "business"), ("type", jsOr a.actorType "unknown")] ++
            optList a.properties }
      children := none })

/-- Child element built from an application component assigned to a
system by index-range slicing.  The JS non-null assertions on `uid`
and `name` are modelled as empty-string defaults; the subsequent
`comp.id && comp.name` filter removes those entries. -/
def mkLC4Child (c : ApplicationComponent) : LC4Base :=
  { id := sanitize (getS c.uid)
    name := getS c.name
    description := c.description
    technology := c.technology
    kind := mapComponentKind c.componentType
    tags := ["application"] ++
      (if truthy c.componentType then [(getS c.componentType).toLower] else [])
    props := [("layer", "application"), ("type", jsOr c.componentType "unknown")] ++
      optList c.properties }

/-- `LikeC4Renderer.mapApplicationsAsSystems`: the per-application
component count divides by the length of the raw (unfiltered)
applications array, and slices the raw components array. -/
def mapApplicationsAsSystemsL (apps : List Application)
    (comps : List ApplicationComponent) : List LikeC4Element :=
  ((apps.filter (fun a => hasIdName a.uid a.name)).enum).map (fun p =>
    let index := p.1
    let app := p.2
    let componentsPerApp := ceilDiv comps.length apps.length
    let appComponents := (comps.drop (index * componentsPerApp)).take componentsPerApp
    { base :=
        { id := sanitize (getS app.uid)
          name := getS app.name
          description := app.description
          technology := none
          kind := "system"
          tags := ["application"] ++
            (if truthy app.stereoType then
              [replaceFirstUnderscore (getS app.stereoType).toLower] else []) ++
            (if truthy app.lifecycle then
              ["lifecycle-" ++ (getS app.lifecycle).toLower] else [])
          props := [("layer", "application"),
            ("stereoType", jsOr app.stereoType "unknown"),
            ("lifecycle", jsOr app.lifecycle "unknown")] }
      children := some ((appComponents.map mkLC4Child).filter
        (fun c => !(c.id == "") && !(c.name == ""))) })

/-- Tagged union of the two service kinds: the source concatenates
both arrays and discriminates with `'serviceLevel' in service`. -/
inductive ServiceSum where
  | bus (b : BusinessService)
  | app (a : ApplicationService)
deriving DecidableEq

def ServiceSum.uid : ServiceSum → Option String
  | bus b => b.uid
  | app a => a.uid

def ServiceSum.name : ServiceSum → Option String
  | bus b => b.name
  | app a => a.name

def ServiceSum.description : ServiceSum → Option String
  | bus b => b.description
  | app a => a.description

def ServiceSum.properties : ServiceSum → Option (List (String × String))
  | bus b => b.properties
  | app a => a.properties

def ServiceSum.isBusiness : ServiceSum → Bool
  | bus _ => true
  | app _ => false

/-- `LikeC4Renderer.mapServices`. -/
def mapServicesL (ss : List ServiceSum) : List LikeC4Element :=
  (ss.filter (fun s => hasIdName s.uid s.name)).map (fun s =>
    { base :=
        { id := sanitize (getS s.uid)
          name := getS s.name
          description := s.description
          technology := none
          kind := "service"
          tags := [(if s.isBusiness then "business" else "application"), "service"]
          props := [("layer", if s.isBusiness then "business" else "application")] ++
            (match s with
             | ServiceSum.bus b =>
               [("serviceLevel", getS b.serviceLevel),
                ("availability", getS b.availability)]
             | ServiceSum.app _ => []) ++
            optList s.properties }
      children := none })

/-- `LikeC4Renderer.mapInfrastructure`. -/
def mapInfrastructureL (nodes : List TechnologyNode)
    (sws : List SystemSoftware) (tss : List TechnologyService) :
    List LikeC4Element :=
  (nodes.filter (fun n => hasIdName n.uid n.name)).map (fun n =>
    { base :=
        { id := sanitize (getS n.uid)
          name := getS n.name
          description := n.description
          technology := n.operatingSystem
          kind := "infrastructure"
          tags := ["technology", "infrastructure"] ++
            (if truthy n.nodeType then [(getS n.nodeType).toLower] else [])
          props := [("layer", "technology"),
            ("nodeType", jsOr n.nodeType "unknown"),
            ("location", jsOr n.location ""),
            ("capacity", jsOr n.capacity ""),
            ("operatingSystem", jsOr n.operatingSystem "")] }
      children := none }) ++
  (sws.filter (fun s => hasIdName s.uid s.name)).map (fun s =>
    { base :=
        { id := sanitize (getS s.uid)
          name := getS s.name
          description := s.description
          technology := some ((jsOr s.vendor "Unknown" ++ " " ++ jsOr s.version "").trim)
          kind := "infrastructure"
          tags := ["technology", "software"] ++
            (if truthy s.softwareType then [(getS s.softwareType).toLower] else [])
          props := [("layer", "technology"),
            ("softwareType", jsOr s.softwareType "unknown"),
            ("vendor", jsOr s.vendor ""),
            ("version", jsOr s.version "")] }
      children := none }) ++
  (tss.filter (fun s => hasIdName s.uid s.name)).map (fun s =>
    { base :=
        { id := sanitize (getS s.uid)
          name := getS s.name
          description := s.description
          technology := s.provider
          kind := "service"
          tags := ["technology", "service"] ++
            (if truthy s.serviceCategory then [(getS s.serviceCategory).toLower] else [])
          props := [("layer", "technology"),
            ("serviceCategory", jsOr s.serviceCategory "unknown"),
            ("provider", jsOr s.provider "")] }
      children := none })

/-- `LikeC4Renderer.mapRelationships`. -/
def mapRelationshipsL (rels : List Relationship) : List LikeC4Relationship :=
  (rels.filter (fun r => truthyRef r.source && truthyRef r.target)).map (fun r =>
    { source := sanitize (extractElementId (r.source.getD (RelRef.str "")))
      target := sanitize (extractElementId (r.target.getD (RelRef.str "")))
      title := r.description
      description := r.description
      technology := (optList r.properties).lookup "technology"
      kind := mapRelationshipKind r.relationshipType
      tags := [jsOrS (getS r.relationshipType).toLower "association"] })

/-- `LikeC4Renderer.generateViewList`. -/
def generateViewList (elements : List LikeC4Element) : List String :=
  let hasActors := elements.any (fun e => e.base.kind == "actor")
  let hasSystems := elements.any (fun e => e.base.kind == "system")
  let hasComponents := elements.any (fun e => !(e.children.getD []).isEmpty)
  ["landscape"] ++
  (if hasActors && hasSystems then ["system-context"] else []) ++
  (if hasSystems && hasComponents then ["container"] else []) ++
  (if hasComponents then ["component"] else [])

/-- `LikeC4Renderer.mapToLikeC4Model`. -/
def mapToLikeC4Model (m : ArchitectureModel) : LikeC4Model :=
  let elements :=
    mapBusinessActorsL (mActors m) ++
    mapApplicationsAsSystemsL (mApplications m) (mComponents m) ++
    mapServicesL ((mBusinessServices m).map ServiceSum.bus ++
      (mApplicationServices m).map ServiceSum.app) ++
    mapInfrastructureL (mNodes m) (mSystemSoftware m) (mTechnologyServices m)
  { name := m.name
    description := m.description
    elements := elements
    relationships := mapRelationshipsL (mRelationships m)
    views := generateViewList elements }

/-- Description/technology/tags lines shared by the element DSL. -/
def lc4PropLines (indent : String) (b : LC4Base) : String :=
  (if truthy b.description then
    indent ++ "  description '" ++ getS b.description ++ "'\n" else "") ++
  (if truthy b.technology then
    indent ++ "  technology '" ++ getS b.technology ++ "'\n" else "") ++
  (if !b.tags.isEmpty then
    indent ++ "  tags " ++ String.intercalate " " (b.tags.map (fun t => "#" ++ t)) ++ "\n"
  else "")

/-- `generateElementDSL` on a childless element (every child the
mapper builds is childless). -/
def lc4LeafDSL (indent : String) (b : LC4Base) : String :=
  let head := indent ++ b.id ++ " = " ++ b.kind ++ " '" ++ b.name ++ "'"
  let hasProperties := truthy b.description || truthy b.technology || !b.props.isEmpty
  if hasProperties then
    head ++ " \x7b\n" ++ lc4PropLines indent b ++ indent ++ "\x7d\n"
  else head ++ "\n"

/-- `LikeC4Renderer.generateElementDSL`.  When a children array is
present the newline guard `element.description || element.technology
|| element.tags` is always satisfied (the tags field is always an
array, and arrays are truthy). -/
def lc4ElementDSL (indent : String) (e : LikeC4Element) : String :=
  let b := e.base
  let head := indent ++ b.id ++ " = " ++ b.kind ++ " '" ++ b.name ++ "'"
  let hasProperties := truthy b.description || truthy b.technology || !b.props.isEmpty
  let hasChildren := !(e.children.getD []).isEmpty
  if hasProperties || hasChildren then
    head ++ " \x7b\n" ++ lc4PropLines indent b ++
    (match e.children with
     | none => ""
     | some cs => "\n" ++ strConcat (cs.map (lc4LeafDSL (indent ++ "  ")))) ++
    indent ++ "\x7d\n"
  else head ++ "\n"

def lc4RelLine (r : LikeC4Relationship) : String :=
  "  " ++ r.source ++ " -> " ++ r.target ++
  (if truthy r.title then " '" ++ getS r.title ++ "'" else "") ++
  (if !(r.kind == "") && !(r.kind == "uses") then
    " \x7b\n    kind: " ++ r.kind ++ "\n  \x7d" else "") ++
  "\n"

/-- `LikeC4Renderer.generateLikeC4DSL`. -/
def generateLikeC4DSL (model : LikeC4Model) (viewType : String) : String :=
  "specification \x7b\n" ++
  strConcat ((jsSet (model.elements.map (fun e => e.base.kind))).map
    (fun k => "  element " ++ k ++ "\n")) ++
  "\n" ++
  strConcat ((jsSet (model.relationships.map (fun r => jsOrS r.kind "uses"))).map
    (fun k => "  relationship " ++ k ++ "\n")) ++
  "\x7d\n\n" ++
  "model \x7b\n" ++
  strConcat (model.elements.map (lc4ElementDSL "  ")) ++
  (if model.relationships.isEmpty then ""
   else "\n  # Relationships\n" ++ strConcat (model.relationships.map lc4RelLine)) ++
  "\x7d\n\n" ++
  "views \x7b\n" ++
  (if viewType == "landscape" || viewType == "system-context" then
    "  view landscape 'Architecture Landscape' \x7b\n    include *\n" ++
    "    style * \x7b\n      color: primary\n    \x7d\n  \x7d\n\n"
  else "") ++
  (match model.elements.filter (fun e => e.base.kind == "system") with
   | [] => ""
   | mainSystem :: _ =>
     if viewType == "system-context" || viewType == "container" then
       "  view systemContext of " ++ mainSystem.base.id ++ " 'System Context' \x7b\n" ++
       "    include *\n    exclude -> *.infrastructure.*\n" ++
       "    style " ++ mainSystem.base.id ++ " \x7b\n      color: green\n    \x7d\n  \x7d\n\n" ++
       (if !(mainSystem.children.getD []).isEmpty then
         "  view containers of " ++ mainSystem.base.id ++ " 'Container View' \x7b\n" ++
         "    include " ++ mainSystem.base.id ++ ".*\n" ++
         "    include -> " ++ mainSystem.base.id ++ ".*\n  \x7d\n\n"
       else "")
     else "") ++
  "\x7d\n"

/-- `LikeC4Renderer.validateLikeC4Model` (advisory warnings). -/
def validateLikeC4Model (model : LikeC4Model) : List String :=
  (if model.elements.isEmpty then ["Model contains no elements"] else []) ++
  (if model.relationships.isEmpty && model.elements.length > 1 then
    ["Model elements have no relationships defined"] else []) ++
  (let without := model.elements.filter (fun e => !truthy e.base.description)
   if !without.isEmpty then
    [toString without.length ++ " elements missing descriptions"] else []) ++
  (let ids := model.elements.map (fun e => e.base.id)
   let dups := (ids.enum.filter (fun p => !(ids.indexOf p.2 == p.1))).map (fun p => p.2)
   if !dups.isEmpty then
    ["Duplicate element IDs found: " ++ String.intercalate ", " dups] else [])

/-- Content produced by `LikeC4Renderer.render`. -/
def likec4Content (m : ArchitectureModel) (opts : RenderOptions) : String :=
  generateLikeC4DSL (mapToLikeC4Model m) (jsOr opts.viewType "landscape")

/- ## Shared renderer scaffolding: metadata, outputs, validation -/

structure ValidationError where
  code : String
  message : String
  elementId : Option String
  severity : String
deriving DecidableEq

structure ValidationWarning where
  code : String
  message : String
  elementId : Option String
  severity : String
deriving DecidableEq

structure ValidationResult where
  isValid : Bool
  errors : List ValidationError
  warnings : List ValidationWarning
deriving DecidableEq

/-- Diagram metadata; `renderingTime` and the timestamp are the only
places a clock reading flows into the output. -/
structure DiagramMetadata where
  title : String
  description : String
  viewType : String
  elementCount : Nat
  relationshipCount : Nat
  layerBusiness : Nat
  layerApplication : Nat
  layerTechnology : Nat
  renderingTime : Option Nat
  warnings : List String
  nodeCount : Option Nat
  edgeCount : Option Nat
deriving DecidableEq

structure DiagramOutput where
  content : String
  format : String
  metadata : DiagramMetadata
  rendererName : String
  timestamp : Nat
deriving DecidableEq

/-- `AbstractRenderer.createDiagramMetadata`. -/
def createDiagramMetadata (m : ArchitectureModel) (viewType : String)
    (renderingTime : Option Nat) : DiagramMetadata :=
  let businessCount := (mActors m).length + (mBusinessServices m).length +
    (optList (m.businessLayer.bind (fun b => b.capabilities))).length
  let applicationCount := (mApplications m).length + (mComponents m).length +
    (mApplicationServices m).length
  let technologyCount := (mNodes m).length + (mTechnologyServices m).length +
    (mSystemSoftware m).length
  { title := m.name
    description := m.description
    viewType := viewType
    elementCount := businessCount + applicationCount + technologyCount
    relationshipCount := (mRelationships m).length
    layerBusiness := businessCount
    layerApplication := applicationCount
    layerTechnology := technologyCount
    renderingTime := renderingTime
    warnings := []
    nodeCount := none
    edgeCount := none }

/-- `GraphRenderer.render`, with the two `Date.now()` reads passed in
as `t0`/`t1` and `new Date()` modelled by `t1`. -/
def graphRender (m : ArchitectureModel) (opts : RenderOptions)
    (t0 t1 : Nat) : DiagramOutput :=
  let graphData := generateGraphData m
  let format := jsOr opts.format "json"
  let content :=
    if format == "visjs" then generateVisJSConfig graphData
    else graphDataJson graphData
  let metadata := createDiagramMetadata m (jsOr opts.viewType "landscape")
    (some (t1 - t0))
  { content := content
    format := format
    metadata := { metadata with
      nodeCount := some graphData.nodes.length
      edgeCount := some graphData.edges.length }
    rendererName := "graph"
    timestamp := t1 }

/-- `PlantUMLRenderer.render`. -/
def plantumlRender (m : ArchitectureModel) (opts : RenderOptions)
    (t0 t1 : Nat) : DiagramOutput :=
  { content := plantumlContent m opts
    format := jsOr opts.format "c4"
    metadata := createDiagramMetadata m (jsOr opts.viewType "landscape")
      (some (t1 - t0))
    rendererName := "plantuml"
    timestamp := t1 }

/-- `StructurizrRenderer.render`. -/
def structurizrRender (m : ArchitectureModel) (opts : RenderOptions)
    (t0 t1 : Nat) : DiagramOutput :=
  { content := structurizrContent m opts
    format := jsOr opts.format "dsl"
    metadata := createDiagramMetadata m (jsOr opts.viewType "landscape")
      (some (t1 - t0))
    rendererName := "structurizr"
    timestamp := t1 }

/-- `LikeC4Renderer.render` (always `dsl` format; advisory warnings
are merged into the metadata). -/
def likec4Render (m : ArchitectureModel) (opts : RenderOptions)
    (t0 t1 : Nat) : DiagramOutput :=
  let likeC4Model := mapToLikeC4Model m
  let metadata := createDiagramMetadata m (jsOr opts.viewType "landscape")
    (some (t1 - t0))
  { content := generateLikeC4DSL likeC4Model (jsOr opts.viewType "landscape")
    format := "dsl"
    metadata := { metadata with warnings := validateLikeC4Model likeC4Model }
    rendererName := "likec4"
    timestamp := t1 }

/- ## Model analyzer and validators -/

/-- `ArchitectureModelAnalyzer.calculateTotalElements`. -/
def calculateTotalElements (m : ArchitectureModel) : Nat :=
  ((mActors m).length + (mBusinessServices m).length +
    (optList (m.businessLayer.bind (fun b => b.capabilities))).length +
    (optList (m.businessLayer.bind (fun b => b.domains))).length +
    (optList (m.businessLayer.bind (fun b => b.processes))).length) +
  ((mApplications m).length + (mComponents m).length +
    (mApplicationServices m).length +
    (optList (m.applicationLayer.bind (fun a => a.interfaces))).length) +
  ((mNodes m).length + (mTechnologyServices m).length +
    (optList (m.technologyLayer.bind (fun t => t.artifacts))).length +
    (optList (m.technologyLayer.bind (fun t => t.interfaces))).length +
    (mSystemSoftware m).length)

/-- `ArchitectureModelAnalyzer.validate`. -/
def analyzerValidate (m : ArchitectureModel) : ValidationResult :=
  let errors :=
    (if m.uid == "" then
      [{ code := "MISSING_UID"
         message := "Architecture model must have a unique identifier"
         elementId := none, severity := "error" }] else []) ++
    (if m.name == "" then
      [{ code := "MISSING_NAME"
         message := "Architecture model must have a name"
         elementId := none, severity := "error" }] else []) ++
    (mRelationships m).enum.flatMap (fun p =>
      (if !truthyRef p.2.source then
        [{ code := "MISSING_SOURCE"
           message := "Relationship " ++ toString p.1 ++ " is missing source element"
           elementId := none, severity := "error" }] else []) ++
      (if !truthyRef p.2.target then
        [{ code := "MISSING_TARGET"
           message := "Relationship " ++ toString p.1 ++ " is missing target element"
           elementId := none, severity := "error" }] else []))
  let warnings :=
    if calculateTotalElements m == 0 then
      [{ code := "EMPTY_MODEL"
         message := "Architecture model contains no elements"
         elementId := none, severity := "warning" }]
    else []
  { isValid := errors.isEmpty, errors := errors, warnings := warnings }

/-- `AbstractRenderer.validate` (inherited default of all four
renderers). -/
def rendererValidate (m : ArchitectureModel) : ValidationResult :=
  if m.uid == "" || m.name == "" then
    { isValid := false
      errors := [{ code := "INVALID_MODEL"
                   message := "Architecture model must have uid and name"
                   elementId := none, severity := "error" }]
      warnings := [] }
  else
    { isValid := true, errors := [], warnings := [] }

/-- `DiagramService.convertToArchitectureModel`, with `Date.now()`
passed in as `now`. -/
def convertToArchitectureModel (a : Architecture) (now : Nat) : ArchitectureModel :=
  { uid := jsOr a.uid ("default-architecture-" ++ toString now)
    name := jsOr a.name "Unnamed Architecture"
    description := jsOr a.description ""
    version := a.version
    businessLayer := a.businessLayer
    applicationLayer := a.applicationLayer
    technologyLayer := a.technologyLayer
    relationships := a.relationships
    metadata := a.metadata }

/- ## Renderer registry -/

/-- Registered renderer as the registry sees it: its validator and a
render function whose thrown exceptions are `Except.error`. -/
structure Renderer where
  validateFn : ArchitectureModel → ValidationResult
  renderFn : ArchitectureModel → RenderOptions → Except String DiagramOutput

/-- Validation gate and exception wrapping performed by
`RendererRegistryService.render` after the lookup has succeeded. -/
def renderWithRenderer (r : Renderer) (m : ArchitectureModel)
    (opts : RenderOptions) : Except String DiagramOutput :=
  let validation := r.validateFn m
  if !validation.isValid then
    Except.error ("Architecture validation failed: " ++
      String.intercalate ", " (validation.errors.map (fun e => e.message)))
  else
    match r.renderFn m opts with
    | Except.ok output => Except.ok output
    | Except.error e => Except.error ("Rendering failed: " ++ e)

/-- `RendererRegistryService.render`: look up the renderer by name,
then validate and render. -/
def registryRender (renderers : List (String × Renderer)) (name : String)
    (m : ArchitectureModel) (opts : RenderOptions) : Except String DiagramOutput :=
  match renderers.lookup name with
  | none => Except.error ("Renderer '" ++ name ++ "' not found")
  | some r => renderWithRenderer r m opts

/- ## Derived notions used by the verification -/

/-- The model with every element that lacks a truthy `uid` or `name`
removed from the eight element arrays that carry uid/name. -/
def pruneModel (m : ArchitectureModel) : ArchitectureModel :=
  { m with
    businessLayer := m.businessLayer.map (fun b =>
      { b with
        actors := b.actors.map (List.filter (fun a => hasIdName a.uid a.name))
        services := b.services.map (List.filter (fun s => hasIdName s.uid s.name)) })
    applicationLayer := m.applicationLayer.map (fun a =>
      { a with
        applications := a.applications.map (List.filter (fun x => hasIdName x.uid x.name))
        components := a.components.map (List.filter (fun c => hasIdName c.uid c.name))
        services := a.services.map (List.filter (fun s => hasIdName s.uid s.name)) })
    technologyLayer := m.technologyLayer.map (fun t =>
      { t with
        nodes := t.nodes.map (List.filter (fun n => hasIdName n.uid n.name))
        systemSoftware := t.systemSoftware.map (List.filter (fun s => hasIdName s.uid s.name))
        services := t.services.map (List.filter (fun s => hasIdName s.uid s.name)) }) }

/-- `(uid, name)` pairs of the elements the Graph renderer draws nodes
from. -/
def graphSourcePairs (m : ArchitectureModel) : List (Option String × Option String) :=
  (mActors m).map (fun a => (a.uid, a.name)) ++
  (mApplications m).map (fun a => (a.uid, a.name)) ++
  (mComponents m).map (fun c => (c.uid, c.name)) ++
  (mNodes m).map (fun n => (n.uid, n.name)) ++
  (mSystemSoftware m).map (fun s => (s.uid, s.name))

/-- `(uid, name)` pairs of the elements the Structurizr mapper draws
elements from. -/
def structurizrSourcePairs (m : ArchitectureModel) : List (Option String × Option String) :=
  (mActors m).map (fun a => (a.uid, a.name)) ++
  (mApplications m).map (fun a => (a.uid, a.name)) ++
  (mComponents m).map (fun c => (c.uid, c.name)) ++
  (mBusinessServices m).map (fun s => (s.uid, s.name)) ++
  (mApplicationServices m).map (fun s => (s.uid, s.name)) ++
  (mNodes m).map (fun n => (n.uid, n.name)) ++
  (mSystemSoftware m).map (fun s => (s.uid, s.name)) ++
  (mTechnologyServices m).map (fun s => (s.uid, s.name))

/-- `(uid, name)` pairs of the elements the LikeC4 mapper draws
elements from (same sources as Structurizr). -/
def likec4SourcePairs (m : ArchitectureModel) : List (Option String × Option String) :=
  structurizrSourcePairs m

/-- Every element of the mapped Structurizr model, across its six
element lists. -/
def structurizrElements (sm : StructurizrModel) : List StructurizrElement :=
  sm.people ++ sm.systems ++ sm.containers ++ sm.components ++
  sm.services ++ sm.infrastructure

/-- Every element base occurring in a LikeC4 model: each top-level
element and each of its children. -/
def likec4Bases (model : LikeC4Model) : List LC4Base :=
  model.elements.flatMap (fun e => e.base :: e.children.getD [])

/- ## Concrete inputs used by witnesses and counterexamples -/

def c4Actor : BusinessActor := ⟨some "actor-1", some "Customer", none, none, none⟩

def c4App : Application := ⟨some "app-1", some "Web App", none, none, none⟩

def c4Rel : Relationship :=
  ⟨some (RelRef.obj (some "actor-1")), some (RelRef.obj (some "app-1")),
   some "Uses", none, none, none⟩

/-- The end-to-end example model: one actor, one application, one
`Uses` relationship. -/
def c4Model : ArchitectureModel :=
  { uid := "test-arch", name := "Test", description := "", version := none
    businessLayer := some ⟨some [c4Actor], none, none, none, none⟩
    applicationLayer := some ⟨some [c4App], none, none, none⟩
    technologyLayer := none
    relationships := some [c4Rel], metadata := none }

/-- Three-node, two-edge model (`A→B`, `B→C`) from the density
example. -/
def densityModel : ArchitectureModel :=
  { uid := "d", name := "d", description := "", version := none
    businessLayer := some
      ⟨some [⟨some "A", some "A", none, none, none⟩,
             ⟨some "B", some "B", none, none, none⟩,
             ⟨some "C", some "C", none, none, none⟩], none, none, none, none⟩
    applicationLayer := none, technologyLayer := none
    relationships := some
      [⟨some (RelRef.obj (some "A")), some (RelRef.obj (some "B")), none, none, none, none⟩,
       ⟨some (RelRef.obj (some "B")), some (RelRef.obj (some "C")), none, none, none, none⟩]
    metadata := none }

/-- One person, one system, no supplied relationships. -/
def inferenceModel : ArchitectureModel :=
  { uid := "x", name := "X", description := "", version := none
    businessLayer := some ⟨some [c4Actor], none, none, none, none⟩
    applicationLayer := some ⟨some [c4App], none, none, none⟩
    technologyLayer := none, relationships := none, metadata := none }

/-- A model whose `uid` and `name` are both empty. -/
def unnamedModel : ArchitectureModel :=
  { uid := "", name := "", description := "", version := none
    businessLayer := none, applicationLayer := none, technologyLayer := none
    relationships := none, metadata := none }

/-- A raw API payload with no `uid`, `name` or `description`. -/
def bareArchitecture : Architecture :=
  { uid := none, name := none, description := none, version := some "1.0"
    businessLayer := none, applicationLayer := none, technologyLayer := none
    relationships := none, metadata := none }

/-- A registered renderer that always succeeds. -/
def okRenderer : Renderer :=
  ⟨rendererValidate, fun m o => Except.ok (graphRender m o 0 0)⟩

/-- A registered renderer whose render function throws. -/
def throwingRenderer : Renderer :=
  ⟨rendererValidate, fun _ _ => Except.error "boom"⟩

/-- A one-entry registry holding the succeeding renderer. -/
def regOk : List (String × Renderer) := [("graph", okRenderer)]

/-- A one-entry registry holding the throwing renderer. -/
def regThrow : List (String × Renderer) := [("graph", throwingRenderer)]

/-- Structurizr model with one system whose slice holds two
containers, exercising the per-container duplication. -/
def dupModel : StructurizrModel :=
  { name := "W", description := ""
    people := []
    systems := [baseElement "sys-1" "Sys" "" "system"]
    containers := [baseElement "c-1" "C1" "" "container",
                   baseElement "c-2" "C2" "" "container"]
    components := [baseElement "k-1" "K1" "" "component"]
    services := []
    infrastructure := []
    relationships := [] }

/-- Structurizr model with no systems at all. -/
def noSystemsModel : StructurizrModel := { dupModel with systems := [] }

/- ## Helper lemmas -/

theorem empty_append_str (s : String) : "" ++ s = s := by
  rcases s with ⟨l⟩
  rfl

theorem strConcat_map_filter {α : Type} (p : α → Bool) (f : α → String)
    (xs : List α) (h : ∀ a, p a = false → f a = "") :
    strConcat ((xs.filter p).map f) = strConcat (xs.map f) := by
  induction xs with
  | nil => rfl
  | cons x xs ih =>
    cases hp : p x with
    | true => simp [List.filter_cons, hp, strConcat, ih]
    | false =>
      simp only [List.filter_cons, hp, Bool.false_eq_true, if_false, List.map_cons,
        strConcat, h x hp, ih, empty_append_str]

theorem mem_of_mem_filter_map {α β : Type} {f : α → β} {p : α → Bool}
    {xs : List α} {y : β} (h : y ∈ (xs.filter p).map f) :
    ∃ a, a ∈ xs ∧ p a = true ∧ y = f a := by
  rcases List.mem_map.mp h with ⟨a, ha, rfl⟩
  rcases List.mem_filter.mp ha with ⟨ha', hp⟩
  exact ⟨a, ha', hp, rfl⟩

theorem truthy_iff {u : Option String} : truthy u = true ↔ ¬ (getS u = "") := by
  cases u with
  | none => simp [truthy, getS]
  | some s => simp [truthy, getS]

theorem hasIdName_iff {u n : Option String} :
    hasIdName u n = true ↔ truthy u = true ∧ truthy n = true := by
  simp [hasIdName]

theorem sanitize_data (s : String) : (sanitize s).data = s.data.map sanChar := rfl

theorem sanitize_eq_empty {s : String} : sanitize s = "" ↔ s = "" := by
  constructor
  · intro h
    have hd : s.data.map sanChar = ([] : List Char) := by
      have := congrArg String.data h
      simpa [sanitize_data] using this
    exact String.ext (by simpa using List.map_eq_nil_iff.mp hd)
  · intro h
    rw [h]
    rfl

theorem sanChar_sanChar (c : Char) : sanChar (sanChar c) = sanChar c := by
  by_cases h : c.isAlphanum
  · simp [sanChar, h]
  · simp [sanChar, h]

theorem sanChar_ok (c : Char) : ((sanChar c).isAlphanum || (sanChar c == '_')) = true := by
  by_cases h : c.isAlphanum
  · simp [sanChar, h]
  · simp [sanChar, h]

theorem length_flatMap_const {α β : Type} (l : List α) (f : α → List β) (k : Nat)
    (h : ∀ a ∈ l, (f a).length = k) : (l.flatMap f).length = l.length * k := by
  induction l with
  | nil => simp
  | cons x xs ih =>
    have hx := h x (List.mem_cons_self x xs)
    have hxs : ∀ a ∈ xs, (f a).length = k := fun a ha => h a (List.mem_cons_of_mem x ha)
    simp [List.flatMap_cons, List.length_append, hx, ih hxs, Nat.succ_mul, Nat.add_comm]

theorem snd_mem_of_mem_enum {α : Type} {l : List α} {p : Nat × α}
    (h : p ∈ l.enum) : p.2 ∈ l := by
  rcases p with ⟨i, x⟩
  rcases List.mem_enum h with ⟨hi, hx⟩
  exact hx ▸ List.getElem_mem hi

theorem pruneModel_name (m : ArchitectureModel) : (pruneModel m).name = m.name := rfl

theorem pruneModel_relationships (m : ArchitectureModel) :
    (pruneModel m).relationships = m.relationships := rfl

theorem mRelationships_prune (m : ArchitectureModel) :
    mRelationships (pruneModel m) = mRelationships m := rfl

theorem mActors_prune (m : ArchitectureModel) :
    mActors (pruneModel m) = (mActors m).filter (fun a => hasIdName a.uid a.name) := by
  rcases m with ⟨u, n, d, v, bl, al, tl, r, md⟩
  cases bl with
  | none => rfl
  | some b =>
    rcases b with ⟨ba, bs, bc, bd, bp⟩
    cases ba with
    | none => rfl
    | some l => rfl

theorem mBusinessServices_prune (m : ArchitectureModel) :
    mBusinessServices (pruneModel m) =
      (mBusinessServices m).filter (fun s => hasIdName s.uid s.name) := by
  rcases m with ⟨u, n, d, v, bl, al, tl, r, md⟩
  cases bl with
  | none => rfl
  | some b =>
    rcases b with ⟨ba, bs, bc, bd, bp⟩
    cases bs with
    | none => rfl
    | some l => rfl

theorem mApplications_prune (m : ArchitectureModel) :
    mApplications (pruneModel m) =
      (mApplications m).filter (fun a => hasIdName a.uid a.name) := by
  rcases m with ⟨u, n, d, v, bl, al, tl, r, md⟩
  cases al with
  | none => rfl
  | some a =>
    rcases a with ⟨aa, ac, as', ai⟩
    cases aa with
    | none => rfl
    | some l => rfl

theorem mComponents_prune (m : ArchitectureModel) :
    mComponents (pruneModel m) =
      (mComponents m).filter (fun c => hasIdName c.uid c.name) := by
  rcases m with ⟨u, n, d, v, bl, al, tl, r, md⟩
  cases al with
  | none => rfl
  | some a =>
    rcases a with ⟨aa, ac, as', ai⟩
    cases ac with
    | none => rfl
    | some l => rfl

theorem mApplicationServices_prune (m : ArchitectureModel) :
    mApplicationServices (pruneModel m) =
      (mApplicationServices m).filter (fun s => hasIdName s.uid s.name) := by
  rcases m with ⟨u, n, d, v, bl, al, tl, r, md⟩
  cases al with
  | none => rfl
  | some a =>
    rcases a with ⟨aa, ac, as', ai⟩
    cases as' with
    | none => rfl
    | some l => rfl

theorem mNodes_prune (m : ArchitectureModel) :
    mNodes (pruneModel m) = (mNodes m).filter (fun n => hasIdName n.uid n.name) := by
  rcases m with ⟨u, n, d, v, bl, al, tl, r, md⟩
  cases tl with
  | none => rfl
  | some t =>
    rcases t with ⟨tn, ts, tw, ta, ti⟩
    cases tn with
    | none => rfl
    | some l => rfl

theorem mSystemSoftware_prune (m : ArchitectureModel) :
    mSystemSoftware (pruneModel m) =
      (mSystemSoftware m).filter (fun s => hasIdName s.uid s.name) := by
  rcases m with ⟨u, n, d, v, bl, al, tl, r, md⟩
  cases tl with
  | none => rfl
  | some t =>
    rcases t with ⟨tn, ts, tw, ta, ti⟩
    cases tw with
    | none => rfl
    | some l => rfl

theorem mTechnologyServices_prune (m : ArchitectureModel) :
    mTechnologyServices (pruneModel m) =
      (mTechnologyServices m).filter (fun s => hasIdName s.uid s.name) := by
  rcases m with ⟨u, n, d, v, bl, al, tl, r, md⟩
  cases tl with
  | none => rfl
  | some t =>
    rcases t with ⟨tn, ts, tw, ta, ti⟩
    cases ts with
    | none => rfl
    | some l => rfl

theorem generateC4Diagram_prune (m : ArchitectureModel) (v : String) :
    generateC4Diagram (pruneModel m) v = generateC4Diagram m v := by
  unfold generateC4Diagram
  rw [pruneModel_name, pruneModel_relationships, mActors_prune, mApplications_prune,
    mComponents_prune, mNodes_prune]
  rw [strConcat_map_filter _ c4ActorLine _ (fun a ha => by simp [c4ActorLine, ha])]
  rw [strConcat_map_filter _ c4SystemLine _ (fun a ha => by simp [c4SystemLine, ha])]
  rw [strConcat_map_filter _ c4ContainerLine _ (fun a ha => by simp [c4ContainerLine, ha])]
  rw [strConcat_map_filter _ c4ComponentLine _ (fun a ha => by simp [c4ComponentLine, ha])]
  rw [strConcat_map_filter _ c4ExtNodeLine _ (fun a ha => by simp [c4ExtNodeLine, ha])]

theorem deploymentNodeBlock_prune (m : ArchitectureModel) :
    deploymentNodeBlock (pruneModel m) = deploymentNodeBlock m := by
  funext n
  unfold deploymentNodeBlock
  rw [mSystemSoftware_prune, List.filter_filter]
  simp [Bool.and_self]

theorem generateDeploymentDiagram_prune (m : ArchitectureModel) :
    generateDeploymentDiagram (pruneModel m) = generateDeploymentDiagram m := by
  unfold generateDeploymentDiagram
  rw [pruneModel_name, mRelationships_prune, mNodes_prune, deploymentNodeBlock_prune]
  rw [strConcat_map_filter _ (deploymentNodeBlock m) _
    (fun a ha => by simp [deploymentNodeBlock, ha])]

theorem generateComponentDiagram_prune (m : ArchitectureModel) :
    generateComponentDiagram (pruneModel m) = generateComponentDiagram m := by
  unfold generateComponentDiagram
  rw [pruneModel_name, mRelationships_prune, mActors_prune, mApplications_prune,
    mComponents_prune, mNodes_prune]
  rw [strConcat_map_filter _ umlActorLine _ (fun a ha => by simp [umlActorLine, ha])]
  rw [strConcat_map_filter _ umlAppLine _ (fun a ha => by simp [umlAppLine, ha])]
  rw [strConcat_map_filter _ umlComponentLine _ (fun a ha => by simp [umlComponentLine, ha])]
  rw [strConcat_map_filter _ umlNodeLine _ (fun a ha => by simp [umlNodeLine, ha])]

theorem seqParticipantIds_prune (m : ArchitectureModel) :
    seqParticipantIds (pruneModel m) = seqParticipantIds m := by
  unfold seqParticipantIds
  rw [mActors_prune, mApplications_prune, mComponents_prune]
  simp [List.filter_filter]

theorem generateSequenceDiagram_prune (m : ArchitectureModel) :
    generateSequenceDiagram (pruneModel m) = generateSequenceDiagram m := by
  unfold generateSequenceDiagram
  rw [pruneModel_name, mRelationships_prune, seqParticipantIds_prune, mActors_prune,
    mApplications_prune, mComponents_prune]
  rw [strConcat_map_filter _ seqActorLine _ (fun a ha => by simp [seqActorLine, ha])]
  rw [strConcat_map_filter _ seqAppLine _ (fun a ha => by simp [seqAppLine, ha])]
  rw [strConcat_map_filter _ seqComponentLine _ (fun a ha => by simp [seqComponentLine, ha])]

theorem plantumlContent_prune (m : ArchitectureModel) (opts : RenderOptions) :
    plantumlContent (pruneModel m) opts = plantumlContent m opts := by
  simp only [plantumlContent, generateC4Diagram_prune, generateDeploymentDiagram_prune,
    generateComponentDiagram_prune, generateSequenceDiagram_prune]

theorem graph_nodes_provenance (m : ArchitectureModel) :
    ∀ n ∈ (generateGraphData m).nodes, ∃ u v,
      (u, v) ∈ graphSourcePairs m ∧ truthy u = true ∧ truthy v = true ∧
      n.id = sanitize (getS u) ∧ n.label = getS v := by
  intro n hn
  simp only [generateGraphData, List.mem_append] at hn
  rcases hn with (((h | h) | h) | h) | h
  · rcases mem_of_mem_filter_map h with ⟨a, ha, hq, rfl⟩
    rcases hasIdName_iff.mp hq with ⟨hu, hv⟩
    refine ⟨a.uid, a.name, ?_, hu, hv, rfl, rfl⟩
    simp only [graphSourcePairs, List.mem_append, List.mem_map]
    exact Or.inl (Or.inl (Or.inl (Or.inl ⟨a, ha, rfl⟩)))
  · rcases mem_of_mem_filter_map h with ⟨a, ha, hq, rfl⟩
    rcases hasIdName_iff.mp hq with ⟨hu, hv⟩
    refine ⟨a.uid, a.name, ?_, hu, hv, rfl, rfl⟩
    simp only [graphSourcePairs, List.mem_append, List.mem_map]
    exact Or.inl (Or.inl (Or.inl (Or.inr ⟨a, ha, rfl⟩)))
  · rcases mem_of_mem_filter_map h with ⟨c, hc, hq, rfl⟩
    rcases hasIdName_iff.mp hq with ⟨hu, hv⟩
    refine ⟨c.uid, c.name, ?_, hu, hv, rfl, rfl⟩
    simp only [graphSourcePairs, List.mem_append, List.mem_map]
    exact Or.inl (Or.inl (Or.inr ⟨c, hc, rfl⟩))
  · rcases mem_of_mem_filter_map h with ⟨t, ht, hq, rfl⟩
    rcases hasIdName_iff.mp hq with ⟨hu, hv⟩
    refine ⟨t.uid, t.name, ?_, hu, hv, rfl, rfl⟩
    simp only [graphSourcePairs, List.mem_append, List.mem_map]
    exact Or.inl (Or.inr ⟨t, ht, rfl⟩)
  · rcases mem_of_mem_filter_map h with ⟨s, hs, hq, rfl⟩
    rcases hasIdName_iff.mp hq with ⟨hu, hv⟩
    refine ⟨s.uid, s.name, ?_, hu, hv, rfl, rfl⟩
    simp only [graphSourcePairs, List.mem_append, List.mem_map]
    exact Or.inr ⟨s, hs, rfl⟩

theorem structurizr_elements_provenance (m : ArchitectureModel) :
    ∀ e ∈ structurizrElements (mapToStructurizrModel m), ∃ u v,
      (u, v) ∈ structurizrSourcePairs m ∧ truthy u = true ∧ truthy v = true ∧
      e.id = getS u ∧ e.name = getS v := by
  intro e he
  simp only [structurizrElements, mapToStructurizrModel, mapBusinessActorsToPeople,
    mapApplicationsToSystems, mapComponentsToContainers, mapComponentsToComponents,
    mapBusinessServicesS, mapApplicationServicesS, mapTechnologyNodesS,
    mapSystemSoftwareS, mapTechnologyServicesS, List.mem_append] at he
  rcases he with ((((hp | hs) | hc) | hk) | hv1 | hv2) | (hi1 | hi2) | hi3
  · rcases mem_of_mem_filter_map hp with ⟨a, ha, hq, rfl⟩
    rcases hasIdName_iff.mp hq with ⟨hu, hv⟩
    refine ⟨a.uid, a.name, ?_, hu, hv, rfl, rfl⟩
    simp only [structurizrSourcePairs, List.mem_append, List.mem_map]
    exact Or.inl (Or.inl (Or.inl (Or.inl (Or.inl (Or.inl (Or.inl ⟨a, ha, rfl⟩))))))
  · rcases mem_of_mem_filter_map hs with ⟨a, ha, hq, rfl⟩
    rcases hasIdName_iff.mp hq with ⟨hu, hv⟩
    refine ⟨a.uid, a.name, ?_, hu, hv, rfl, rfl⟩
    simp only [structurizrSourcePairs, List.mem_append, List.mem_map]
    exact Or.inl (Or.inl (Or.inl (Or.inl (Or.inl (Or.inl (Or.inr ⟨a, ha, rfl⟩))))))
  · rcases mem_of_mem_filter_map hc with ⟨c, hc1, _, rfl⟩
    rcases List.mem_filter.mp hc1 with ⟨hc0, hq⟩
    rcases hasIdName_iff.mp hq with ⟨hu, hv⟩
    refine ⟨c.uid, c.name, ?_, hu, hv, rfl, rfl⟩
    simp only [structurizrSourcePairs, List.mem_append, List.mem_map]
    exact Or.inl (Or.inl (Or.inl (Or.inl (Or.inl (Or.inr ⟨c, hc0, rfl⟩)))))
  · rcases mem_of_mem_filter_map hk with ⟨c, hc1, _, rfl⟩
    rcases List.mem_filter.mp hc1 with ⟨hc0, hq⟩
    rcases hasIdName_iff.mp hq with ⟨hu, hv⟩
    refine ⟨c.uid, c.name, ?_, hu, hv, rfl, rfl⟩
    simp only [structurizrSourcePairs, List.mem_append, List.mem_map]
    exact Or.inl (Or.inl (Or.inl (Or.inl (Or.inl (Or.inr ⟨c, hc0, rfl⟩)))))
  · rcases mem_of_mem_filter_map hv1 with ⟨s, hs0, hq, rfl⟩
    rcases hasIdName_iff.mp hq with ⟨hu, hv⟩
    refine ⟨s.uid, s.name, ?_, hu, hv, rfl, rfl⟩
    simp only [structurizrSourcePairs, List.mem_append, List.mem_map]
    exact Or.inl (Or.inl (Or.inl (Or.inl (Or.inr ⟨s, hs0, rfl⟩))))
  · rcases mem_of_mem_filter_map hv2 with ⟨s, hs0, hq, rfl⟩
    rcases hasIdName_iff.mp hq with ⟨hu, hv⟩
    refine ⟨s.uid, s.name, ?_, hu, hv, rfl, rfl⟩
    simp only [structurizrSourcePairs, List.mem_append, List.mem_map]
    exact Or.inl (Or.inl (Or.inl (Or.inr ⟨s, hs0, rfl⟩)))
  · rcases mem_of_mem_filter_map hi1 with ⟨t, ht0, hq, rfl⟩
    rcases hasIdName_iff.mp hq with ⟨hu, hv⟩
    refine ⟨t.uid, t.name, ?_, hu, hv, rfl, rfl⟩
    simp only [structurizrSourcePairs, List.mem_append, List.mem_map]
    exact Or.inl (Or.inl (Or.inr ⟨t, ht0, rfl⟩))
  · rcases mem_of_mem_filter_map hi2 with ⟨s, hs0, hq, rfl⟩
    rcases hasIdName_iff.mp hq with ⟨hu, hv⟩
    refine ⟨s.uid, s.name, ?_, hu, hv, rfl, rfl⟩
    simp only [structurizrSourcePairs, List.mem_append, List.mem_map]
    exact Or.inl (Or.inr ⟨s, hs0, rfl⟩)
  · rcases mem_of_mem_filter_map hi3 with ⟨s, hs0, hq, rfl⟩
    rcases hasIdName_iff.mp hq with ⟨hu, hv⟩
    refine ⟨s.uid, s.name, ?_, hu, hv, rfl, rfl⟩
    simp only [structurizrSourcePairs, List.mem_append, List.mem_map]
    exact Or.inr ⟨s, hs0, rfl⟩

theorem likec4_bases_provenance (m : ArchitectureModel) :
    ∀ b ∈ likec4Bases (mapToLikeC4Model m), ∃ u v,
      (u, v) ∈ likec4SourcePairs m ∧ truthy u = true ∧ truthy v = true ∧
      b.id = sanitize (getS u) ∧ b.name = getS v := by
  intro b hb
  simp only [likec4Bases, mapToLikeC4Model, List.mem_flatMap] at hb
  rcases hb with ⟨e, he, hbe⟩
  simp only [List.mem_append] at he
  rcases he with ((ha | hs) | hv) | hi
  · rcases mem_of_mem_filter_map ha with ⟨a, ha0, hq, rfl⟩
    rcases hasIdName_iff.mp hq with ⟨hu, hv⟩
    simp only [mapBusinessActorsL] at hbe
    simp only [Option.getD_none, List.mem_cons, List.not_mem_nil, or_false] at hbe
    subst hbe
    refine ⟨a.uid, a.name, ?_, hu, hv, rfl, rfl⟩
    simp only [likec4SourcePairs, structurizrSourcePairs, List.mem_append, List.mem_map]
    exact Or.inl (Or.inl (Or.inl (Or.inl (Or.inl (Or.inl (Or.inl ⟨a, ha0, rfl⟩))))))
  · simp only [mapApplicationsAsSystemsL] at hs
    rcases List.mem_map.mp hs with ⟨p, hp, rfl⟩
    have happ := snd_mem_of_mem_enum hp
    rcases List.mem_filter.mp happ with ⟨ha0, hq⟩
    rcases hasIdName_iff.mp hq with ⟨hu, hv⟩
    simp only [Option.getD_some, List.mem_cons] at hbe
    rcases hbe with rfl | hchild
    · refine ⟨p.2.uid, p.2.name, ?_, hu, hv, rfl, rfl⟩
      simp only [likec4SourcePairs, structurizrSourcePairs, List.mem_append, List.mem_map]
      exact Or.inl (Or.inl (Or.inl (Or.inl (Or.inl (Or.inl (Or.inr ⟨p.2, ha0, rfl⟩))))))
    · rcases List.mem_filter.mp hchild with ⟨hmem, hpred⟩
      rcases List.mem_map.mp hmem with ⟨comp, hcomp, rfl⟩
      rcases (Bool.and_eq_true _ _).mp hpred with ⟨h1, h2⟩
      simp only [mkLC4Child, Bool.not_eq_eq_eq_not, Bool.not_true, beq_eq_false_iff_ne,
        ne_eq] at h1 h2
      have hu' : truthy comp.uid = true :=
        truthy_iff.mpr (fun hc => h1 (sanitize_eq_empty.mpr hc))
      have hv' : truthy comp.name = true := truthy_iff.mpr h2
      have hcomp' : comp ∈ mComponents m :=
        List.drop_subset _ _ (List.take_subset _ _ hcomp)
      refine ⟨comp.uid, comp.name, ?_, hu', hv', rfl, rfl⟩
      simp only [likec4SourcePairs, structurizrSourcePairs, List.mem_append, List.mem_map]
      exact Or.inl (Or.inl (Or.inl (Or.inl (Or.inl (Or.inr ⟨comp, hcomp', rfl⟩)))))
  · rcases mem_of_mem_filter_map hv with ⟨s, hsm, hq, rfl⟩
    rcases hasIdName_iff.mp hq with ⟨hu, hv⟩
    simp only [Option.getD_none, List.mem_cons, List.not_mem_nil, or_false] at hbe
    subst hbe
    rcases List.mem_append.mp hsm with h1 | h2
    · rcases List.mem_map.mp h1 with ⟨b0, hb0, rfl⟩
      refine ⟨b0.uid, b0.name, ?_, hu, hv, rfl, rfl⟩
      simp only [likec4SourcePairs, structurizrSourcePairs, List.mem_append, List.mem_map]
      exact Or.inl (Or.inl (Or.inl (Or.inl (Or.inr ⟨b0, hb0, rfl⟩))))
    · rcases List.mem_map.mp h2 with ⟨a0, ha0, rfl⟩
      refine ⟨a0.uid, a0.name, ?_, hu, hv, rfl, rfl⟩
      simp only [likec4SourcePairs, structurizrSourcePairs, List.mem_append, List.mem_map]
      exact Or.inl (Or.inl (Or.inl (Or.inr ⟨a0, ha0, rfl⟩)))
  · simp only [mapInfrastructureL, List.mem_append] at hi
    rcases hi with (hi1 | hi2) | hi3
    · rcases mem_of_mem_filter_map hi1 with ⟨t, ht0, hq, rfl⟩
      rcases hasIdName_iff.mp hq with ⟨hu, hv⟩
      simp only [Option.getD_none, List.mem_cons, List.not_mem_nil, or_false] at hbe
      subst hbe
      refine ⟨t.uid, t.name, ?_, hu, hv, rfl, rfl⟩
      simp only [likec4SourcePairs, structurizrSourcePairs, List.mem_append, List.mem_map]
      exact Or.inl (Or.inl (Or.inr ⟨t, ht0, rfl⟩))
    · rcases mem_of_mem_filter_map hi2 with ⟨s, hs0, hq, rfl⟩
      rcases hasIdName_iff.mp hq with ⟨hu, hv⟩
      simp only [Option.getD_none, List.mem_cons, List.not_mem_nil, or_false] at hbe
      subst hbe
      refine ⟨s.uid, s.name, ?_, hu, hv, rfl, rfl⟩
      simp only [likec4SourcePairs, structurizrSourcePairs, List.mem_append, List.mem_map]
      exact Or.inl (Or.inr ⟨s, hs0, rfl⟩)
    · rcases mem_of_mem_filter_map hi3 with ⟨s, hs0, hq, rfl⟩
      rcases hasIdName_iff.mp hq with ⟨hu, hv⟩
      simp only [Option.getD_none, List.mem_cons, List.not_mem_nil, or_false] at hbe
      subst hbe
      refine ⟨s.uid, s.name, ?_, hu, hv, rfl, rfl⟩
      simp only [likec4SourcePairs, structurizrSourcePairs, List.mem_append, List.mem_map]
      exact Or.inr ⟨s, hs0, rfl⟩

theorem str_append_empty (s : String) : s ++ "" = s := by
  rcases s with ⟨l⟩
  show String.mk (l ++ []) = String.mk l
  rw [List.append_nil]

/- ## Claim theorems -/

/-- C1: every model element (business actor, application, application
component, technology node, system software, service) lacking a truthy
`uid` or `name` contributes no node/element to any of the four
renderers' outputs: every Graph node, every mapped Structurizr element
and every mapped LikeC4 element (children included) stems from an
element with truthy `uid` and `name`, and the PlantUML renderer's
content is unchanged when all such elements are removed. -/
theorem claim_C1_unnamed_elements_filtered (m : ArchitectureModel) :
    (∀ n ∈ (generateGraphData m).nodes, ∃ u v,
      (u, v) ∈ graphSourcePairs m ∧ truthy u = true ∧ truthy v = true ∧
      n.id = sanitize (getS u) ∧ n.label = getS v) ∧
    (∀ e ∈ structurizrElements (mapToStructurizrModel m), ∃ u v,
      (u, v) ∈ structurizrSourcePairs m ∧ truthy u = true ∧ truthy v = true ∧
      e.id = getS u ∧ e.name = getS v) ∧
    (∀ b ∈ likec4Bases (mapToLikeC4Model m), ∃ u v,
      (u, v) ∈ likec4SourcePairs m ∧ truthy u = true ∧ truthy v = true ∧
      b.id = sanitize (getS u) ∧ b.name = getS v) ∧
    (∀ opts, plantumlContent (pruneModel m) opts = plantumlContent m opts) :=
  ⟨graph_nodes_provenance m, structurizr_elements_provenance m,
   likec4_bases_provenance m, fun opts => plantumlContent_prune m opts⟩

/-- Witness for C1 at the concrete example model. -/
theorem claim_C1_witness :
    actorNode c4Actor ∈ (generateGraphData c4Model).nodes ∧
    (∃ u v, (u, v) ∈ graphSourcePairs c4Model ∧ truthy u = true ∧ truthy v = true ∧
      (actorNode c4Actor).id = sanitize (getS u) ∧ (actorNode c4Actor).label = getS v) :=
  ⟨by decide, (claim_C1_unnamed_elements_filtered c4Model).1 (actorNode c4Actor) (by decide)⟩

/-- C2: for a model supplying zero relationships that maps to at least
one person and at least one system, the Structurizr mapper synthesizes
exactly `|people| × |systems|` relationships — one from every person to
every system — each of type SERVING. -/
theorem claim_C2_full_bipartite_serving_inference (m : ArchitectureModel)
    (h : mRelationships m = [])
    (hp : (mapToStructurizrModel m).people ≠ [])
    (hs : (mapToStructurizrModel m).systems ≠ []) :
    (mapToStructurizrModel m).relationships.length =
      (mapToStructurizrModel m).people.length * (mapToStructurizrModel m).systems.length ∧
    (∀ r ∈ (mapToStructurizrModel m).relationships, r.relationshipType = "SERVING") ∧
    (∀ p ∈ (mapToStructurizrModel m).people, ∀ s ∈ (mapToStructurizrModel m).systems,
      inferredRel p s ∈ (mapToStructurizrModel m).relationships) ∧
    (∀ r ∈ (mapToStructurizrModel m).relationships,
      ∃ p ∈ (mapToStructurizrModel m).people, ∃ s ∈ (mapToStructurizrModel m).systems,
        r = inferredRel p s) := by
  have hinfer : (mapToStructurizrModel m).relationships =
      inferActorSystemRelationships (mapToStructurizrModel m).people
        (mapToStructurizrModel m).systems := by
    simp only [mapToStructurizrModel, h, mapRelationshipsS, List.filter_nil,
      List.map_nil, List.length_nil]
    rfl
  have h1 : (mapToStructurizrModel m).people.isEmpty = false := by
    simpa [List.isEmpty_iff] using hp
  have h2 : (mapToStructurizrModel m).systems.isEmpty = false := by
    simpa [List.isEmpty_iff] using hs
  have hne : (mapToStructurizrModel m).relationships =
      (mapToStructurizrModel m).people.flatMap
        (fun p => (mapToStructurizrModel m).systems.map (fun s => inferredRel p s)) := by
    rw [hinfer, inferActorSystemRelationships]
    simp [h1, h2]
  refine ⟨?_, ?_, ?_, ?_⟩
  · rw [hne]
    exact length_flatMap_const _ _ _ (fun p _ => by simp)
  · intro r hr
    rw [hne] at hr
    rcases List.mem_flatMap.mp hr with ⟨p, hp0, hr2⟩
    rcases List.mem_map.mp hr2 with ⟨s0, hs0, rfl⟩
    rfl
  · intro p hp0 s hs0
    rw [hne]
    exact List.mem_flatMap.mpr ⟨p, hp0, List.mem_map_of_mem _ hs0⟩
  · intro r hr
    rw [hne] at hr
    rcases List.mem_flatMap.mp hr with ⟨p, hp0, hr2⟩
    rcases List.mem_map.mp hr2 with ⟨s0, hs0, rfl⟩
    exact ⟨p, hp0, s0, hs0, rfl⟩

/-- Witness for C2: one actor, one application, no relationships. -/
theorem claim_C2_witness :
    mRelationships inferenceModel = [] ∧
    (mapToStructurizrModel inferenceModel).people ≠ [] ∧
    (mapToStructurizrModel inferenceModel).systems ≠ [] ∧
    (mapToStructurizrModel inferenceModel).relationships.length =
      (mapToStructurizrModel inferenceModel).people.length *
        (mapToStructurizrModel inferenceModel).systems.length :=
  ⟨rfl, by decide, by decide,
   (claim_C2_full_bipartite_serving_inference inferenceModel rfl (by decide) (by decide)).1⟩

/-- C3: rendering is a pure function of the model and options — the
`content` string of each of the four renderers is independent of the
clock readings, which reach only the metadata `renderingTime` and the
output `timestamp`. -/
theorem claim_C3_content_deterministic (m : ArchitectureModel) (opts : RenderOptions)
    (t0 t1 s0 s1 : Nat) :
    (graphRender m opts t0 t1).content = (graphRender m opts s0 s1).content ∧
    (plantumlRender m opts t0 t1).content = (plantumlRender m opts s0 s1).content ∧
    (structurizrRender m opts t0 t1).content = (structurizrRender m opts s0 s1).content ∧
    (likec4Render m opts t0 t1).content = (likec4Render m opts s0 s1).content ∧
    (graphRender m opts t0 t1).timestamp = t1 ∧
    (graphRender m opts t0 t1).metadata.renderingTime = some (t1 - t0) ∧
    (structurizrRender m opts t0 t1).timestamp = t1 ∧
    (structurizrRender m opts t0 t1).metadata.renderingTime = some (t1 - t0) :=
  ⟨rfl, rfl, rfl, rfl, rfl, rfl, rfl, rfl⟩

/-- C4 counterexample: at the end-to-end example the Graph renderer's
node ids are not `actor-1`/`app-1` — sanitization rewrites the hyphens
to underscores. -/
theorem claim_C4_counterexample :
    ¬ ((generateGraphData c4Model).nodes.map (fun n => n.id) = ["actor-1", "app-1"]) := by
  decide

/-- C4 amended: the example model yields exactly 2 nodes with ids
`actor_1`/`app_1` (hyphens sanitized to underscores) and exactly 1
edge from `actor_1` to `app_1` labelled `Uses`. -/
theorem claim_C4_graph_example :
    (generateGraphData c4Model).nodes.map (fun n => n.id) = ["actor_1", "app_1"] ∧
    (generateGraphData c4Model).nodes.length = 2 ∧
    (generateGraphData c4Model).nodes.map (fun n => n.label) = ["Customer", "Web App"] ∧
    (generateGraphData c4Model).edges =
      [{ from_ := "actor_1", to_ := "app_1", label := "Uses", arrows := "to",
         color := "#666666", dashes := false }] := by
  decide

/-- C5: identifier sanitization is idempotent and its output consists
only of ASCII alphanumerics and underscores. -/
theorem claim_C5_sanitize_idempotent (x : String) :
    sanitize (sanitize x) = sanitize x ∧
    (sanitize x).data.all (fun c => c.isAlphanum || c == '_') = true := by
  constructor
  · apply String.ext
    have hcomp : sanChar ∘ sanChar = sanChar := funext sanChar_sanChar
    simp [sanitize_data, List.map_map, hcomp]
  · rw [sanitize_data, List.all_map]
    exact List.all_eq_true.mpr (fun c _ => sanChar_ok c)

theorem density_example_val :
    calculateDensity (generateGraphData densityModel) = 2/3 := by
  have hn : (generateGraphData densityModel).nodes.length = 3 := by decide
  have he : (generateGraphData densityModel).edges.length = 2 := by decide
  unfold calculateDensity
  rw [hn, he]
  norm_num

/-- C6 counterexample: the density of the 3-node/2-edge example graph
is exactly `2/3`, not `0.667`. -/
theorem claim_C6_counterexample :
    calculateDensity (generateGraphData densityModel) = 2/3 ∧
    ¬ (calculateDensity (generateGraphData densityModel) = 667/1000) := by
  refine ⟨density_example_val, ?_⟩
  rw [density_example_val]
  norm_num

/-- C6 amended: density is exactly 0 for graphs with at most one node
and exactly `2·|E| / (|N|·(|N|−1))` otherwise; in particular the
3-node/2-edge example has density `2·2/(3·2) = 2/3 ≈ 0.667`. -/
theorem claim_C6_density_formula (g : GraphData) :
    (g.nodes.length ≤ 1 → calculateDensity g = 0) ∧
    (1 < g.nodes.length →
      calculateDensity g = (2 * (g.edges.length : ℚ)) /
        ((g.nodes.length : ℚ) * ((g.nodes.length : ℚ) - 1))) ∧
    calculateDensity (generateGraphData densityModel) = 2/3 := by
  refine ⟨?_, ?_, density_example_val⟩
  · intro h
    unfold calculateDensity
    rw [if_neg (by omega)]
  · intro h
    have h1 : (1 : ℕ) ≤ g.nodes.length := Nat.le_of_lt h
    unfold calculateDensity
    rw [if_pos h]
    push_cast [Nat.cast_sub h1]
    ring_nf

/-- Witness for C6 at the example graph and the empty graph. -/
theorem claim_C6_witness :
    (1 < (generateGraphData densityModel).nodes.length) ∧
    calculateDensity (generateGraphData densityModel) =
      (2 * ((generateGraphData densityModel).edges.length : ℚ)) /
        (((generateGraphData densityModel).nodes.length : ℚ) *
          (((generateGraphData densityModel).nodes.length : ℚ) - 1)) ∧
    ((⟨[], [], ""⟩ : GraphData).nodes.length ≤ 1) ∧
    calculateDensity ⟨[], [], ""⟩ = 0 :=
  ⟨by decide, (claim_C6_density_formula (generateGraphData densityModel)).2.1 (by decide),
   by decide, (claim_C6_density_formula ⟨[], [], ""⟩).1 (by decide)⟩

/-- C7: registry render failures — an unknown renderer name yields a
labeled failure; a failed validation yields a failure carrying the
joined error messages without the render function being consulted
(the result is the same for any render function); an exception thrown
while rendering surfaces as a labeled failure. -/
theorem claim_C7_registry_error_handling (rs : List (String × Renderer)) (name : String)
    (m : ArchitectureModel) (opts : RenderOptions) :
    (rs.lookup name = none →
      registryRender rs name m opts =
        Except.error ("Renderer '" ++ name ++ "' not found")) ∧
    (∀ r, rs.lookup name = some r → (r.validateFn m).isValid = false →
      registryRender rs name m opts =
        Except.error ("Architecture validation failed: " ++
          String.intercalate ", " ((r.validateFn m).errors.map (fun e => e.message))) ∧
      ∀ f g, renderWithRenderer ⟨r.validateFn, f⟩ m opts =
        renderWithRenderer ⟨r.validateFn, g⟩ m opts) ∧
    (∀ r e, rs.lookup name = some r → (r.validateFn m).isValid = true →
      r.renderFn m opts = Except.error e →
      registryRender rs name m opts = Except.error ("Rendering failed: " ++ e)) := by
  refine ⟨?_, ?_, ?_⟩
  · intro h
    simp [registryRender, h]
  · intro r hr hv
    constructor
    · simp [registryRender, hr, renderWithRenderer, hv]
    · intro f g
      simp [renderWithRenderer, hv]
  · intro r e hr hv he
    simp [registryRender, hr, renderWithRenderer, hv, he]

/-- Witness for C7: unknown name, invalid model, and throwing renderer. -/
theorem claim_C7_witness :
    (registryRender regOk "missing" unnamedModel ⟨none, none⟩ =
      Except.error "Renderer 'missing' not found") ∧
    (registryRender regOk "graph" unnamedModel ⟨none, none⟩ =
      Except.error ("Architecture validation failed: " ++
        String.intercalate ", "
          ((okRenderer.validateFn unnamedModel).errors.map (fun e => e.message)))) ∧
    (registryRender regThrow "graph" c4Model ⟨none, none⟩ =
      Except.error ("Rendering failed: " ++ "boom")) :=
  ⟨(claim_C7_registry_error_handling regOk "missing" unnamedModel ⟨none, none⟩).1 rfl,
   ((claim_C7_registry_error_handling regOk "graph" unnamedModel ⟨none, none⟩).2.1
     okRenderer rfl rfl).1,
   (claim_C7_registry_error_handling regThrow "graph" c4Model ⟨none, none⟩).2.2
     throwingRenderer "boom" rfl rfl rfl⟩

/-- C8: validating a model whose `uid` and `name` are both empty is
invalid under both validators — the analyzer reports a MISSING_UID and
a MISSING_NAME error, and the renderers' inherited default validator
reports an INVALID_MODEL error whose message covers the missing name. -/
theorem claim_C8_empty_uid_name_validation (m : ArchitectureModel)
    (hu : m.uid = "") (hn : m.name = "") :
    (analyzerValidate m).isValid = false ∧
    (∃ e ∈ (analyzerValidate m).errors, e.code = "MISSING_UID") ∧
    (∃ e ∈ (analyzerValidate m).errors, e.code = "MISSING_NAME") ∧
    (rendererValidate m).isValid = false ∧
    (∃ e ∈ (rendererValidate m).errors, e.code = "INVALID_MODEL") ∧
    (∃ e ∈ (rendererValidate m).errors,
      e.message = "Architecture model must have uid and name") := by
  refine ⟨?_, ?_, ?_, ?_, ?_, ?_⟩
  · simp [analyzerValidate, hu, hn]
  · refine ⟨⟨"MISSING_UID", "Architecture model must have a unique identifier",
      none, "error"⟩, ?_, rfl⟩
    simp [analyzerValidate, hu, hn]
  · refine ⟨⟨"MISSING_NAME", "Architecture model must have a name",
      none, "error"⟩, ?_, rfl⟩
    simp [analyzerValidate, hu, hn]
  · simp [rendererValidate, hu]
  · refine ⟨⟨"INVALID_MODEL", "Architecture model must have uid and name",
      none, "error"⟩, ?_, rfl⟩
    simp [rendererValidate, hu]
  · refine ⟨⟨"INVALID_MODEL", "Architecture model must have uid and name",
      none, "error"⟩, ?_, rfl⟩
    simp [rendererValidate, hu]

/-- Witness for C8 at the concrete empty-uid/name model. -/
theorem claim_C8_witness :
    unnamedModel.uid = "" ∧ unnamedModel.name = "" ∧
    (analyzerValidate unnamedModel).isValid = false ∧
    (∃ e ∈ (analyzerValidate unnamedModel).errors, e.code = "MISSING_UID") ∧
    (rendererValidate unnamedModel).isValid = false :=
  ⟨rfl, rfl, (claim_C8_empty_uid_name_validation unnamedModel rfl rfl).1,
   (claim_C8_empty_uid_name_validation unnamedModel rfl rfl).2.1,
   (claim_C8_empty_uid_name_validation unnamedModel rfl rfl).2.2.2.1⟩

/-- C9 counterexample: a missing `description` does not pass through
unchanged — the conversion defaults it to the empty string. -/
theorem claim_C9_counterexample :
    bareArchitecture.description = none ∧
    ¬ (bareArchitecture.description =
        some ((convertToArchitectureModel bareArchitecture 0).description)) := by
  exact ⟨rfl, by decide⟩

/-- C9 amended: the conversion defaults a missing/empty `uid` (to a
timestamp-based placeholder) and a missing/empty `name` (to a fixed
placeholder), defaults a missing `description` to the empty string,
and passes every other field through unchanged. -/
theorem claim_C9_conversion_frame (a : Architecture) (now : Nat) :
    (convertToArchitectureModel a now).version = a.version ∧
    (convertToArchitectureModel a now).businessLayer = a.businessLayer ∧
    (convertToArchitectureModel a now).applicationLayer = a.applicationLayer ∧
    (convertToArchitectureModel a now).technologyLayer = a.technologyLayer ∧
    (convertToArchitectureModel a now).relationships = a.relationships ∧
    (convertToArchitectureModel a now).metadata = a.metadata ∧
    (convertToArchitectureModel a now).description = getS a.description ∧
    (truthy a.uid = true → (convertToArchitectureModel a now).uid = getS a.uid) ∧
    (truthy a.uid = false →
      (convertToArchitectureModel a now).uid = "default-architecture-" ++ toString now) ∧
    (truthy a.name = true → (convertToArchitectureModel a now).name = getS a.name) ∧
    (truthy a.name = false →
      (convertToArchitectureModel a now).name = "Unnamed Architecture") := by
  refine ⟨rfl, rfl, rfl, rfl, rfl, rfl, ?_, ?_, ?_, ?_, ?_⟩
  · show jsOr a.description "" = getS a.description
    rcases a.description with _ | s
    · rfl
    · by_cases hs : s = "" <;> simp [jsOr, truthy, getS, hs]
  · intro h
    simp [convertToArchitectureModel, jsOr, h, getS]
  · intro h
    simp [convertToArchitectureModel, jsOr, h]
  · intro h
    simp [convertToArchitectureModel, jsOr, h, getS]
  · intro h
    simp [convertToArchitectureModel, jsOr, h]

/-- Witness for C9 at the bare payload. -/
theorem claim_C9_witness :
    truthy bareArchitecture.uid = false ∧
    (convertToArchitectureModel bareArchitecture 5).uid =
      "default-architecture-" ++ toString 5 ∧
    (convertToArchitectureModel bareArchitecture 5).version = bareArchitecture.version :=
  ⟨rfl, (claim_C9_conversion_frame bareArchitecture 5).2.2.2.2.2.2.2.2.1 rfl,
   (claim_C9_conversion_frame bareArchitecture 5).1⟩

/-- C10: in the Structurizr DSL, each container of the first system
(index 0) inlines every mapped component and service declaration
(hence duplication when the first system holds several containers),
containers of any later system inline none, and with zero systems the
whole DSL is independent of the components and services. -/
theorem claim_C10_components_only_in_first_system (sm : StructurizrModel) (i : Nat)
    (c : StructurizrElement) :
    (dslContainerChunk sm 0 c =
      dslContainerHead c ++ strConcat (sm.components.map dslComponentLine) ++
      strConcat (sm.services.map dslServiceLine) ++ "            \x7d\n") ∧
    (i ≠ 0 → dslContainerChunk sm i c = dslContainerHead c ++ "            \x7d\n") ∧
    (sm.systems = [] →
      generateStructurizrDSL sm =
        generateStructurizrDSL { sm with components := [], services := [] }) := by
  refine ⟨rfl, ?_, ?_⟩
  · intro hi
    have hb : (i == 0) = false := by simpa using hi
    simp only [dslContainerChunk, hb, Bool.false_eq_true, if_false]
    rw [str_append_empty, str_append_empty]
  · intro hsys
    rcases sm with ⟨n, d, p, sys, cont, comp, serv, infra, rels⟩
    simp only at hsys
    subst hsys
    simp [generateStructurizrDSL, dslViews]

/-- Witness for C10 on concrete models: a non-first container chunk is
bare, and a systemless DSL ignores components and services. -/
theorem claim_C10_witness :
    (dslContainerChunk dupModel 1 (baseElement "c-2" "C2" "" "container") =
      dslContainerHead (baseElement "c-2" "C2" "" "container") ++ "            \x7d\n") ∧
    (generateStructurizrDSL noSystemsModel =
      generateStructurizrDSL { noSystemsModel with components := [], services := [] }) :=
  ⟨(claim_C10_components_only_in_first_system dupModel 1
      (baseElement "c-2" "C2" "" "container")).2.1 (by decide),
   (claim_C10_components_only_in_first_system noSystemsModel 1
      (baseElement "c-2" "C2" "" "container")).2.2 rfl⟩
